import Mathlib

/-!
# Verified model of the tabular data-quality detection-and-correction engine

This file is a shallow embedding, in Lean 4, of the core of the
`dataPreprocessing` repository: the issue detectors of
`backend/app/services/data_analyzer.py` and the correction engine of
`backend/app/services/data_preprocessor.py` (single-pass `preprocess_dataset`
and the convergence loop `fix_all_issues`), together with theorems about them.

Modelling conventions:

* A pandas `DataFrame` is a `Table`: an ordered list of named columns, each
  either numeric (`Col.num`, cells `Option ℚ`, `none` = NaN), object/text
  (`Col.str`, cells `Option String`, `none` = NaN) or datetime
  (`Col.dt`, cells `Option DateT`, `none` = NaT).  Python floats are
  idealised as rationals.
* Statistical primitives that the source obtains from third-party libraries
  (`np.log1p`, `Series.skew`, `DataFrame.corr`, `scipy.stats.boxcox`,
  `pd.to_datetime` parsing, float `repr`, the `imblearn` resamplers) are,
  following the specification's own modelling ("direct calls into third-party
  statistics/ML libraries ... treated as an external collaborator"),
  parameters of the model, collected in a `StatsLib` structure.  All
  engine-side arithmetic, comparisons and control flow are embedded directly.
* A `boxcox`/`fitResample` collaborator result of `none` models the library
  call raising an exception (in the source these call sites are wrapped in
  `try`/`except`).
* Pure display artefacts of the source (`print` statements, `description`
  and `percentage` fields, HTTP response assembly, file/database I/O) are not
  modelled; `FailureMemory` persistence is modelled by threading the set of
  failed columns and recording each saved state.
-/

namespace DP

/-! ## Basic list utilities -/

/-- The non-null values of a column, in order (pandas `dropna`). -/
def nonnull (l : List (Option α)) : List α := l.filterMap id

/-- Distinct values in first-occurrence order (pandas `Series.unique`). -/
def uniqueVals [DecidableEq α] : List α → List α
  | [] => []
  | a :: rest => a :: (uniqueVals rest).filter (fun b => b ≠ a)

/-- Number of occurrences of each distinct value (the counts underlying
pandas `Series.value_counts`; `value_counts` sorts them descending, but the
engine only ever takes `min`/`max` over them, so the order is irrelevant). -/
def valueCounts [DecidableEq α] (l : List α) : List ℕ :=
  (uniqueVals l).map fun v => l.count v

/-- Minimum of a list of naturals (`0` for the empty list). -/
def minNat : List ℕ → ℕ
  | [] => 0
  | n :: rest => rest.foldl Nat.min n

/-- Maximum of a list of naturals (`0` for the empty list). -/
def maxNat : List ℕ → ℕ
  | [] => 0
  | n :: rest => rest.foldl Nat.max n

/-- Minimum of a list of rationals (pandas `Series.min` over non-null
values; the callers guard against the empty/NaN case). -/
def listMin : List ℚ → ℚ
  | [] => 0
  | x :: rest => rest.foldl min x

/-- Maximum of a list of rationals (pandas `Series.max`). -/
def listMax : List ℚ → ℚ
  | [] => 0
  | x :: rest => rest.foldl max x

/-- Number of distinct values (pandas `Series.nunique` over non-null cells). -/
def nuniqueL [DecidableEq α] (l : List α) : ℕ := (uniqueVals l).length

/-- Substring test (Python's `needle in haystack` on strings). -/
def strContains (haystack needle : String) : Bool :=
  (haystack.splitOn needle).length > 1

end DP

namespace DP

/-! ## The Table data model -/

/-- A datetime value: (year, month, day).  Time-of-day is irrelevant to the
engine (only `%Y`/`%m`/`%d` formatting and year/month/day extraction occur). -/
abbrev DateT := ℕ × ℕ × ℕ

/-- One column of a table, tagged with its pandas dtype. -/
inductive Col where
  | num : List (Option ℚ) → Col
  | str : List (Option String) → Col
  | dt : List (Option DateT) → Col
deriving DecidableEq, Repr

/-- A cell value as seen by row-level operations (`duplicated`, `equals`). -/
inductive CellV where
  | q : ℚ → CellV
  | s : String → CellV
  | d : DateT → CellV
deriving DecidableEq, Repr

/-- An in-memory dataset: ordered, named, positionally-aligned columns. -/
structure Table where
  cols : List (String × Col)
deriving DecidableEq, Repr

/-- Length of a column. -/
def Col.len : Col → ℕ
  | .num v => v.length
  | .str v => v.length
  | .dt v => v.length

/-- The cell at row `i`, `none` = NaN/NaT. -/
def Col.cellAt (c : Col) (i : ℕ) : Option CellV :=
  match c with
  | .num v => (v.getD i none).map CellV.q
  | .str v => (v.getD i none).map CellV.s
  | .dt v => (v.getD i none).map CellV.d

/-- Column names in order (`df.columns`). -/
def Table.names (df : Table) : List String := df.cols.map Prod.fst

/-- Row count (`len(df)`).  Columns are positionally aligned, so the first
column's length is the table's row count; a table with no columns has no
rows (CSV/XLSX loading cannot produce rows without columns). -/
def Table.nRows (df : Table) : ℕ :=
  match df.cols with
  | [] => 0
  | (_, c) :: _ => c.len

/-- Look up a column by name (first match, like pandas label lookup). -/
def Table.getCol (df : Table) (name : String) : Option Col :=
  (df.cols.find? fun p => p.fst = name).map Prod.snd

/-- Replace the named column in place (pandas `df[col] = ...` for an
existing label; the engine never assigns a fresh label this way except in
`extract`, which uses `Table.addCol`). -/
def Table.setCol (df : Table) (name : String) (c : Col) : Table :=
  ⟨df.cols.map fun p => if p.fst = name then (p.fst, c) else p⟩

/-- Append a new column at the end (pandas `df[newcol] = ...`). -/
def Table.addCol (df : Table) (name : String) (c : Col) : Table :=
  ⟨df.cols ++ [(name, c)]⟩

/-- Drop all columns with a listed name, ignoring names that are absent
(`df.drop(columns=..., errors='ignore')`). -/
def Table.dropColumns (df : Table) (names : List String) : Table :=
  ⟨df.cols.filter fun p => p.fst ∉ names⟩

/-- The row at index `i` as a tuple of cells. -/
def Table.row (df : Table) (i : ℕ) : List (Option CellV) :=
  df.cols.map fun p => p.snd.cellAt i

/-- Keep only the rows whose index satisfies `keep` (boolean-mask row
filtering; pandas resets nothing, positional alignment is preserved). -/
def Col.filterIdx (c : Col) (keep : ℕ → Bool) : Col :=
  match c with
  | .num v => .num ((v.enum.filter fun p => keep p.fst).map Prod.snd)
  | .str v => .str ((v.enum.filter fun p => keep p.fst).map Prod.snd)
  | .dt v => .dt ((v.enum.filter fun p => keep p.fst).map Prod.snd)

/-- Keep only the rows whose index satisfies `keep`. -/
def Table.keepRows (df : Table) (keep : ℕ → Bool) : Table :=
  ⟨df.cols.map fun p => (p.fst, p.snd.filterIdx keep)⟩

/-- Non-null cells of a numeric column; `[]` for non-numeric columns. -/
def Col.numNonnull : Col → List ℚ
  | .num v => nonnull v
  | _ => []

/-- Is this a numeric-dtype column (`pd.api.types.is_numeric_dtype`)? -/
def Col.isNum : Col → Bool
  | .num _ => true
  | _ => false

/-- Is this an object-dtype column (`select_dtypes(include=['object'])`)? -/
def Col.isStr : Col → Bool
  | .str _ => true
  | _ => false

/-- `Series.nunique` (distinct non-null values) for any dtype. -/
def Col.nunique : Col → ℕ
  | .num v => nuniqueL (nonnull v)
  | .str v => nuniqueL (nonnull v)
  | .dt v => nuniqueL (nonnull v)

/-- Count of null cells (`Series.isna().sum()`). -/
def Col.nullCount : Col → ℕ
  | .num v => (v.filter Option.isNone).length
  | .str v => (v.filter Option.isNone).length
  | .dt v => (v.filter Option.isNone).length

/-- Count of non-null cells (`Series.notna().sum()`). -/
def Col.notnaCount (c : Col) : ℕ := c.len - c.nullCount

end DP

namespace DP

/-! ## External statistical collaborators

The spec (§1) treats the third-party statistics/ML libraries as external
collaborators of the core; they are modelled as parameters. -/

/-- Which resampler `_handle_imbalanced_data` constructs. -/
inductive SamplerChoice where
  | randomOver
  | randomUnder
  | smote (kNeighbors : ℕ)
deriving DecidableEq, Repr

/-- The third-party statistical primitives used by the engine. -/
structure StatsLib where
  /-- `np.log1p` on one float. -/
  log1p : ℚ → ℚ
  /-- `pandas.Series.skew()`, applied to the non-null values. -/
  skew : List ℚ → ℚ
  /-- Pearson correlation of two aligned numeric columns (`DataFrame.corr`). -/
  corr : List (Option ℚ) → List (Option ℚ) → ℚ
  /-- `scipy.stats.boxcox` on a column; `none` models the call raising. -/
  boxcox : List (Option ℚ) → Option (List (Option ℚ))
  /-- Permissive date parsing of one string (`pd.to_datetime`);
  `none` = unparseable (NaT under `errors='coerce'`). -/
  toDatetime : String → Option DateT
  /-- Python `str()` of a float cell (`astype(str)`; `none` becomes "nan"). -/
  floatToStr : Option ℚ → String
  /-- Python `str()` of a datetime cell (`none` becomes "NaT"). -/
  tsToStr : Option DateT → String
  /-- `pd.to_numeric` on a datetime64 column entry (epoch conversion). -/
  tsToNum : DateT → ℚ
  /-- `imblearn` resampler `fit_resample` on the one-hot encoded feature
  table and the target values; `none` models the call raising. -/
  fitResample : SamplerChoice → Table → Col → Option (Table × Col)

end DP

namespace DP

/-! ## Quantiles (pandas `Series.quantile`, linear interpolation) -/

/-- Linear interpolation of a sorted list at fractional position `h`:
`s[floor h] + (h - floor h) * (s[ceil h] - s[floor h])`. -/
def interpAt (s : List ℚ) (h : ℚ) : ℚ :=
  s.getD (Int.toNat ⌊h⌋) 0 +
    (h - (⌊h⌋ : ℚ)) *
      (s.getD (Int.toNat ⌈h⌉) 0 - s.getD (Int.toNat ⌊h⌋) 0)

/-- `Series.quantile(q)` with the default linear interpolation: drop nulls
(callers pass the non-null values), sort ascending, interpolate at
`(n - 1) * q`.  Callers guard the empty case (pandas returns NaN there). -/
def quantile (l : List ℚ) (q : ℚ) : ℚ :=
  let s := List.insertionSort (· ≤ ·) l
  interpAt s (((l.length : ℚ) - 1) * q)

/-! ## Numeric string parsing (`pd.to_numeric(..., errors='coerce')`)

Modelled for decimal literals with optional sign and fractional part
(the engine's detectors only need "does this string parse as a number"). -/

/-- Numeric value of a block of decimal digits. -/
def digitsVal (ds : List Char) : ℕ :=
  ds.foldl (fun acc c => acc * 10 + (c.toNat - '0'.toNat)) 0

/-- Parse an unsigned decimal literal `digits[.digits]`. -/
def parseUnsigned (cs : List Char) : Option ℚ :=
  match cs.span Char.isDigit with
  | (ds, rest) =>
    match rest with
    | [] => if ds.isEmpty then none else some (digitsVal ds : ℚ)
    | '.' :: fs =>
      if fs.all Char.isDigit && !(ds.isEmpty && fs.isEmpty) then
        some ((digitsVal ds : ℚ) + (digitsVal fs : ℚ) / ((10 : ℚ) ^ fs.length))
      else none
    | _ => none

/-- Parse one cell string as a number; `none` models coercion to NaN. -/
def parseNumeric (s : String) : Option ℚ :=
  match s.trim.data with
  | [] => none
  | '-' :: cs => (parseUnsigned cs).map Neg.neg
  | '+' :: cs => parseUnsigned cs
  | cs => parseUnsigned cs

/-! ## Date-pattern matching (`_check_date_formats` regular expressions) -/

/-- A character-class test of the date regexes. -/
def dig : Char → Bool := Char.isDigit

/-- Literal-character test. -/
def lit (c : Char) : Char → Bool := fun x => x = c

/-- Does the pattern match a prefix of the character list? -/
def matchPrefixAt : List (Char → Bool) → List Char → Bool
  | [], _ => true
  | _ :: _, [] => false
  | p :: ps, c :: cs => p c && matchPrefixAt ps cs

/-- Does the pattern match anywhere in the character list (`re.search`)? -/
def containsPat (pat : List (Char → Bool)) : List Char → Bool
  | [] => matchPrefixAt pat []
  | c :: cs => matchPrefixAt pat (c :: cs) || containsPat pat cs

/-- The three date regexes of `_check_date_formats`, joined with `|`:
`\d{4}-\d{2}-\d{2}`, `\d{2}/\d{2}/\d{4}`, `\d{2}-\d{2}-\d{4}`. -/
def hasDatePattern (s : String) : Bool :=
  containsPat [dig, dig, dig, dig, lit '-', dig, dig, lit '-', dig, dig] s.data ||
  containsPat [dig, dig, lit '/', dig, dig, lit '/', dig, dig, dig, dig] s.data ||
  containsPat [dig, dig, lit '-', dig, dig, lit '-', dig, dig, dig, dig] s.data

end DP

namespace DP

/-! ## Schema types (`app/models/schemas.py`) -/

/-- `IssueSeverity`. -/
inductive IssueSeverity where
  | low | medium | high | critical
deriving DecidableEq, Repr

/-- `IssueType` (the full closed enumeration of the source). -/
inductive IssueType where
  | missing_values
  | duplicates
  | outliers
  | imbalanced_data
  | inconsistent_types
  | categorical_inconsistencies
  | invalid_ranges
  | skewness
  | high_cardinality
  | constant_values
  | correlated_features
  | wrong_date_format
  | encoding_issues
  | mixed_units
  | noisy_text
deriving DecidableEq, Repr

/-- `DataIssue`.  The `description`, `percentage`, `details` and
`recommended_actions` fields of the source are display-only (never read by
the correction engine) and are not modelled. -/
structure DataIssue where
  type : IssueType
  severity : IssueSeverity
  affected_columns : List String
  count : ℕ
deriving DecidableEq, Repr

/-- The `parameters` mapping of a `PreprocessAction`; only the three keys
the engine ever reads are modelled. -/
structure Params where
  format : Option String := none
  parts : Option (List String) := none
  target_column : Option String := none
deriving DecidableEq, Repr

/-- `PreprocessAction`. -/
structure Action where
  issue_type : IssueType
  columns : List String
  method : String
  parameters : Params := {}
deriving DecidableEq, Repr

/-- One record of the `applied_actions` log. -/
structure LogEntry where
  iteration : Option ℕ
  issue_type : IssueType
  columns : List String
  method : String
  status : String
  reason : Option String := none
  error : Option String := none
deriving DecidableEq, Repr

/-! ## Analysis settings (`app/core/config.py`) -/

/-- `OUTLIER_THRESHOLD = 1.5`. -/
def OUTLIER_THRESHOLD : ℚ := 3 / 2

/-- `HIGH_CARDINALITY_THRESHOLD = 50`. -/
def HIGH_CARDINALITY_THRESHOLD : ℕ := 50

/-- `CORRELATION_THRESHOLD = 0.9`. -/
def CORRELATION_THRESHOLD : ℚ := 9 / 10

/-- `SKEWNESS_THRESHOLD = 1.0`. -/
def SKEWNESS_THRESHOLD : ℚ := 1

/-- `DataAnalyzer._get_severity`: fixed breakpoints 0.05, 0.15, 0.30. -/
def getSeverity (p : ℚ) : IssueSeverity :=
  if p < 1 / 20 then .low
  else if p < 3 / 20 then .medium
  else if p < 3 / 10 then .high
  else .critical

end DP

namespace DP

/-! ## Issue detectors (`DataAnalyzer`, `data_analyzer.py`) -/

/-- `_check_missing_values`: flag if any column has nulls; severity from
(total nulls)/(rows x columns). -/
def checkMissingValues (df : Table) : List DataIssue :=
  let missingCols := df.cols.filterMap fun p =>
    if p.snd.nullCount > 0 then some (p.fst, p.snd.nullCount) else none
  if missingCols.length > 0 then
    let totalCells : ℕ := df.nRows * df.cols.length
    let totalMissing : ℕ := (df.cols.map fun p => p.snd.nullCount).sum
    [{ type := .missing_values,
       severity := getSeverity ((totalMissing : ℚ) / (totalCells : ℚ)),
       affected_columns := missingCols.map Prod.fst,
       count := totalMissing }]
  else []

/-- `DataFrame.duplicated().sum()`: rows equal to an earlier row.
NaN cells in equal positions compare equal, as in pandas. -/
def duplicatedCount (df : Table) : ℕ :=
  (List.range df.nRows).countP fun i =>
    (List.range i).any fun j => df.row j = df.row i

/-- `_check_duplicates`. -/
def checkDuplicates (df : Table) : List DataIssue :=
  let d := duplicatedCount df
  if d > 0 then
    [{ type := .duplicates,
       severity := getSeverity ((d : ℚ) / (df.nRows : ℚ)),
       affected_columns := df.names,
       count := d }]
  else []

/-- `_check_outliers`: per numeric column with at least 4 non-null values
and non-zero IQR, count values outside `[Q1 - 1.5*IQR, Q3 + 1.5*IQR]`. -/
def checkOutliers (df : Table) : List DataIssue :=
  let outlierCols := df.cols.filterMap fun p =>
    match p.snd with
    | .num v =>
      let nn := nonnull v
      if nn.length < 4 then none
      else
        let q1 := quantile nn (1 / 4)
        let q3 := quantile nn (3 / 4)
        let iqr := q3 - q1
        if iqr = 0 then none
        else
          let lower := q1 - OUTLIER_THRESHOLD * iqr
          let upper := q3 + OUTLIER_THRESHOLD * iqr
          let o := nn.countP fun x => x < lower || upper < x
          if o > 0 then some (p.fst, o) else none
    | _ => none
  if outlierCols.isEmpty then []
  else
    [{ type := .outliers,
       severity := .medium,
       affected_columns := outlierCols.map Prod.fst,
       count := (outlierCols.map Prod.snd).sum }]

/-- `_check_data_types`: an object column is mixed if a strict subset
(neither none nor all) of its non-null values parses as numeric. -/
def checkDataTypes (df : Table) : List DataIssue :=
  let inconsistentCols := df.cols.filterMap fun p =>
    match p.snd with
    | .str v =>
      let numericCount := (nonnull v).countP fun s => (parseNumeric s).isSome
      if 0 < numericCount ∧ numericCount < (nonnull v).length then some p.fst
      else none
    | _ => none
  if inconsistentCols.isEmpty then []
  else
    [{ type := .inconsistent_types,
       severity := .high,
       affected_columns := inconsistentCols,
       count := inconsistentCols.length }]

/-- `_check_categorical_issues`: flag an object column whose
case/whitespace-folded distinct count is strictly below its raw distinct
count. -/
def checkCategoricalIssues (df : Table) : List DataIssue :=
  let problematicCols := df.cols.filterMap fun p =>
    match p.snd with
    | .str v =>
      let uniq := uniqueVals (nonnull v)
      if uniq.length > 1 ∧
          nuniqueL (uniq.map fun s => s.toLower.trim) < uniq.length then
        some p.fst
      else none
    | _ => none
  if problematicCols.isEmpty then []
  else
    [{ type := .categorical_inconsistencies,
       severity := .medium,
       affected_columns := problematicCols,
       count := problematicCols.length }]

/-- `_check_constant_features`: columns with exactly one distinct value. -/
def checkConstantFeatures (df : Table) : List DataIssue :=
  let constantCols := (df.cols.filter fun p => p.snd.nunique = 1).map Prod.fst
  if constantCols.isEmpty then []
  else
    [{ type := .constant_values,
       severity := .low,
       affected_columns := constantCols,
       count := constantCols.length }]

/-- `_check_correlated_features`: absolute pairwise correlation above the
threshold, upper triangle only.  The source builds `affected_columns` as
`list(set(...))`, whose order is Python-hash nondeterministic; the model
uses first-occurrence order over the same elements. -/
def checkCorrelatedFeatures (S : StatsLib) (df : Table) : List DataIssue :=
  let numericCols := df.cols.filterMap fun p =>
    match p.snd with
    | .num v => some (p.fst, v)
    | _ => none
  if numericCols.length > 1 then
    let highCorr := (List.range numericCols.length).flatMap fun j =>
      (List.range j).filterMap fun i =>
        let ci := numericCols.getD i ("", [])
        let cj := numericCols.getD j ("", [])
        if CORRELATION_THRESHOLD < |S.corr ci.snd cj.snd| then
          some (cj.fst, ci.fst)
        else none
    if highCorr.isEmpty then []
    else
      [{ type := .correlated_features,
         severity := .low,
         affected_columns :=
           uniqueVals (highCorr.map Prod.fst ++ highCorr.map Prod.snd),
         count := highCorr.length }]
  else []

/-- `_check_skewness`: numeric columns, excluding memoized-failed ones,
with at least 5 distinct values, range at least 0.01 and
`|skew| > SKEWNESS_THRESHOLD * 1.1`. -/
def checkSkewness (S : StatsLib) (df : Table) (excludeCols : List String) :
    List DataIssue :=
  let skewedCols := df.cols.filterMap fun p =>
    match p.snd with
    | .num v =>
      if p.fst ∈ excludeCols then none
      else if nuniqueL (nonnull v) < 5 then none
      else if listMax (nonnull v) - listMin (nonnull v) < 1 / 100 then none
      else if SKEWNESS_THRESHOLD * (11 / 10) < |S.skew (nonnull v)| then
        some p.fst
      else none
    | _ => none
  if skewedCols.isEmpty then []
  else
    [{ type := .skewness,
       severity := .medium,
       affected_columns := skewedCols,
       count := skewedCols.length }]

/-- `_check_high_cardinality`: object columns with more than 50 distinct
values. -/
def checkHighCardinality (df : Table) : List DataIssue :=
  let highCardCols := df.cols.filterMap fun p =>
    match p.snd with
    | .str v =>
      if HIGH_CARDINALITY_THRESHOLD < nuniqueL (nonnull v) then some p.fst
      else none
    | _ => none
  if highCardCols.isEmpty then []
  else
    [{ type := .high_cardinality,
       severity := .medium,
       affected_columns := highCardCols,
       count := highCardCols.length }]

/-- `_check_date_formats`: object columns where more than half of a 100-row
non-null sample contains a date pattern.  (The subsequent
`pd.to_datetime(..., errors='coerce')` probe never raises, so the source
always appends the column.) -/
def checkDateFormats (df : Table) : List DataIssue :=
  let dateCols := df.cols.filterMap fun p =>
    match p.snd with
    | .str v =>
      let sample := (nonnull v).take 100
      let matchCount := sample.countP hasDatePattern
      if ((sample.length : ℚ) * (1 / 2) < (matchCount : ℚ)) then some p.fst
      else none
    | _ => none
  if dateCols.isEmpty then []
  else
    [{ type := .wrong_date_format,
       severity := .medium,
       affected_columns := dateCols,
       count := dateCols.length }]

/-- Count of characters matching `[^a-zA-Z0-9\s]`. -/
def specialCharCount (s : String) : ℕ :=
  s.data.countP fun c => !(c.isAlphanum || c.isWhitespace)

/-- `_check_text_issues`: mean special-character count over a 100-row
sample divided by mean string length exceeds 0.2.  The two means share the
sample size, so the ratio equals (total special)/(total length); an empty
sample or zero total length yields NaN in the source, and `NaN > 0.2` is
false, which the guards reproduce. -/
def checkTextIssues (df : Table) : List DataIssue :=
  let noisyCols := df.cols.filterMap fun p =>
    match p.snd with
    | .str v =>
      let sample := (nonnull v).take 100
      let totalSpecial : ℕ := (sample.map specialCharCount).sum
      let totalLen : ℕ := (sample.map String.length).sum
      if sample.length ≠ 0 ∧ totalLen ≠ 0 ∧
          (1 / 5 : ℚ) < (totalSpecial : ℚ) / (totalLen : ℚ) then
        some p.fst
      else none
    | _ => none
  if noisyCols.isEmpty then []
  else
    [{ type := .noisy_text,
       severity := .low,
       affected_columns := noisyCols,
       count := noisyCols.length }]

/-- `_check_imbalanced_data`: object columns with 2-9 distinct values and
max-class/min-class ratio above 3; one issue per column. -/
def checkImbalancedData (df : Table) : List DataIssue :=
  df.cols.filterMap fun p =>
    match p.snd with
    | .str v =>
      let counts := valueCounts (nonnull v)
      if 1 < counts.length ∧ counts.length < 10 ∧
          (3 : ℚ) < (maxNat counts : ℚ) / (minNat counts : ℚ) then
        some { type := .imbalanced_data,
               severity := .medium,
               affected_columns := [p.fst],
               count := 1 }
      else none
    | _ => none

/-- The post-detection filter `_analyze_dataframe` applies to skewness
issues when the excluded-column set is non-empty (truthy). -/
def filterSkewIssues (excl : List String) (issues : List DataIssue) :
    List DataIssue :=
  if excl.isEmpty then issues
  else
    (issues.map fun i =>
      let cols := i.affected_columns.filter fun c => c ∉ excl
      { i with affected_columns := cols, count := cols.length }).filter
      fun i => i.affected_columns.length > 0

/-- `DataPreprocessor._analyze_dataframe`: all twelve checks, in the
source's order, with previously failed skewness columns filtered out of the
skewness issue after detection. -/
def analyzeDataframe (S : StatsLib) (df : Table) (excludeSkew : List String) :
    List DataIssue :=
  checkOutliers df ++
  filterSkewIssues excludeSkew (checkSkewness S df []) ++
  checkMissingValues df ++
  checkDuplicates df ++
  checkDataTypes df ++
  checkCategoricalIssues df ++
  checkConstantFeatures df ++
  checkCorrelatedFeatures S df ++
  checkHighCardinality df ++
  checkDateFormats df ++
  checkTextIssues df ++
  checkImbalancedData df

end DP

namespace DP

/-! ## Method-name normalization (`_normalize_method_name`) -/

/-- `DataPreprocessor._normalize_method_name`: lower-case, replace
underscores by spaces, strip parentheses, then map per issue type by
substring tests; unmatched methods fall through unchanged. -/
def normalizeMethodName (method : String) (issue_type : IssueType) : String :=
  let methodLower := ((method.toLower.replace "_" " ").replace "(" "").replace ")" ""
  match issue_type with
  | .missing_values =>
    if strContains methodLower "mean" then "mean"
    else if strContains methodLower "median" then "median"
    else if strContains methodLower "mode" then "mode"
    else if strContains methodLower "forward" then "forward_fill"
    else if strContains methodLower "backward" then "backward_fill"
    else if strContains methodLower "drop" then "drop"
    else method
  | .duplicates => "remove"
  | .outliers =>
    if strContains methodLower "cap" || strContains methodLower "iqr" then "cap"
    else if strContains methodLower "remove" then "remove"
    else if strContains methodLower "log" then "log"
    else method
  | .skewness =>
    if strContains methodLower "log" then "log"
    else if strContains methodLower "sqrt" || strContains methodLower "square root" then "sqrt"
    else if strContains methodLower "box" || strContains methodLower "cox" then "box_cox"
    else method
  | .high_cardinality =>
    if strContains methodLower "group" || strContains methodLower "rare" then "group_rare"
    else if strContains methodLower "target" then "target_encoding"
    else if strContains methodLower "remove" then "remove"
    else method
  | .categorical_inconsistencies =>
    if strContains methodLower "normalize" || strContains methodLower "naming" then "normalize"
    else if strContains methodLower "label" then "label_encode"
    else if strContains methodLower "one hot" || strContains methodLower "onehot" then "one_hot"
    else method
  | .inconsistent_types => "convert"
  | .constant_values => "remove"
  | .correlated_features =>
    if strContains methodLower "pca" then "pca" else "remove"
  | .wrong_date_format =>
    if strContains methodLower "extract" || strContains methodLower "component" then
      "extract_components"
    else "standardize"
  | .noisy_text =>
    if strContains methodLower "lowercase" then "lowercase"
    else if strContains methodLower "punctuation" then "remove_punctuation"
    else if strContains methodLower "stopword" then "remove_stopwords"
    else method
  | .imbalanced_data =>
    if strContains methodLower "smote" then "smote"
    else if strContains methodLower "undersample" then "undersample"
    else if strContains methodLower "oversample" then "oversample"
    else method
  | _ => method

/-! ## Column-level helpers shared by the executors -/

/-- Boolean comparison on rationals (tie-breaking in `Series.mode`). -/
def leQ : ℚ → ℚ → Bool := fun a b => a ≤ b

/-- Boolean lexicographic comparison on strings. -/
def leS : String → String → Bool := fun a b => a ≤ b

/-- Boolean lexicographic comparison on dates. -/
def leD : DateT → DateT → Bool := fun a b =>
  a.1 < b.1 || (a.1 = b.1 && (a.2.1 < b.2.1 || (a.2.1 = b.2.1 && a.2.2 ≤ b.2.2)))

/-- `Series.mode()[0]`: the smallest (w.r.t. `le`) among the most frequent
values; `none` when the series has no non-null values. -/
def modeList [DecidableEq α] (le : α → α → Bool) (l : List α) : Option α :=
  let mx := maxNat (valueCounts l)
  match (uniqueVals l).filter (fun v => l.count v = mx) with
  | [] => none
  | c :: cs => some (cs.foldl (fun a b => if le a b then a else b) c)

/-- `Series.median()`. -/
def medianQ (l : List ℚ) : ℚ :=
  let s := List.insertionSort (· ≤ ·) l
  let n := s.length
  if n % 2 = 1 then s.getD (n / 2) 0
  else (s.getD (n / 2 - 1) 0 + s.getD (n / 2) 0) / 2

/-- Forward-fill with a carried last-seen value. -/
def ffillGo (carry : Option α) : List (Option α) → List (Option α)
  | [] => []
  | none :: rest => carry :: ffillGo carry rest
  | some x :: rest => some x :: ffillGo (some x) rest

/-- `Series.ffill()`. -/
def Col.ffill : Col → Col
  | .num v => .num (ffillGo none v)
  | .str v => .str (ffillGo none v)
  | .dt v => .dt (ffillGo none v)

/-- `Series.bfill()` (forward fill of the reversed series). -/
def Col.bfill : Col → Col
  | .num v => .num (ffillGo none v.reverse).reverse
  | .str v => .str (ffillGo none v.reverse).reverse
  | .dt v => .dt (ffillGo none v.reverse).reverse

/-- Null mask of a column (`Series.isna()`). -/
def Col.naMask : Col → List Bool
  | .num v => v.map Option.isNone
  | .str v => v.map Option.isNone
  | .dt v => v.map Option.isNone

/-- `Series.astype(str)`: every cell becomes a string; NaN becomes the
string "nan" (NaT becomes "NaT").  Float and datetime formatting are
library behaviour, hence collaborator calls. -/
def Col.astypeStr (S : StatsLib) : Col → List String
  | .num v => v.map S.floatToStr
  | .str v => v.map fun o => match o with | some s => s | none => "nan"
  | .dt v => v.map S.tsToStr

/-- Non-null cells of any column as tagged values. -/
def Col.nonnullCells : Col → List CellV
  | .num v => (nonnull v).map CellV.q
  | .str v => (nonnull v).map CellV.s
  | .dt v => (nonnull v).map CellV.d

end DP

namespace DP

/-! ## Action executors (`DataPreprocessor._handle_*`) -/

/-- `_handle_missing_values`: per column, skip absent columns and columns
without nulls; `mean`/`median` silently downgrade to `mode` on non-numeric
columns; `drop` removes the rows that are null in this column. -/
def handleMissingValues (df : Table) (columns : List String) (method : String) :
    Table :=
  match columns with
  | [] => df
  | col :: rest =>
    let dfNext :=
      match df.getCol col with
      | none => df
      | some c =>
        if c.nullCount = 0 then df
        else
          let actual :=
            if (method = "mean" ∨ method = "median") ∧ ¬c.isNum then "mode"
            else method
          if actual = "mean" then
            match c with
            | .num v =>
              match nonnull v with
              | [] => df -- mean of an all-null column is NaN; fillna(NaN) is a no-op
              | nn => df.setCol col (.num (v.map fun o => some (o.getD (nn.sum / nn.length))))
            | _ => df
          else if actual = "median" then
            match c with
            | .num v =>
              match nonnull v with
              | [] => df
              | nn => df.setCol col (.num (v.map fun o => some (o.getD (medianQ nn))))
            | _ => df
          else if actual = "mode" then
            match c with
            | .num v =>
              match modeList leQ (nonnull v) with
              | none => df
              | some m => df.setCol col (.num (v.map fun o => some (o.getD m)))
            | .str v =>
              match modeList leS (nonnull v) with
              | none => df
              | some m => df.setCol col (.str (v.map fun o => some (o.getD m)))
            | .dt v =>
              match modeList leD (nonnull v) with
              | none => df
              | some m => df.setCol col (.dt (v.map fun o => some (o.getD m)))
          else if actual = "forward_fill" then df.setCol col c.ffill
          else if actual = "backward_fill" then df.setCol col c.bfill
          else if actual = "drop" then df.keepRows fun i => (c.cellAt i).isSome
          else df
    handleMissingValues dfNext rest method

/-- `_handle_duplicates`: `remove` keeps the first occurrence of each row. -/
def handleDuplicates (df : Table) (method : String) : Table :=
  if method = "remove" then
    df.keepRows fun i => !((List.range i).any fun j => df.row j = df.row i)
  else df

/-- The `cap` branch of `_handle_outliers` on one numeric column: clip to
`[Q1 - 1.5*IQR, Q3 + 1.5*IQR]`, quantiles taken over the column's current
(pre-clip) non-null values.  With no non-null values the bounds are NaN and
pandas `clip` leaves the column unchanged. -/
def capColumn (v : List (Option ℚ)) : List (Option ℚ) :=
  let nn := nonnull v
  if nn.isEmpty then v
  else
    let q1 := quantile nn (1 / 4)
    let q3 := quantile nn (3 / 4)
    let iqr := q3 - q1
    let lower := q1 - (3 / 2) * iqr
    let upper := q3 + (3 / 2) * iqr
    v.map (Option.map fun x => max lower (min x upper))

/-- The lower clip bound used by `capColumn`. -/
def capLower (v : List (Option ℚ)) : ℚ :=
  quantile (nonnull v) (1 / 4) -
    (3 / 2) * (quantile (nonnull v) (3 / 4) - quantile (nonnull v) (1 / 4))

/-- The upper clip bound used by `capColumn`. -/
def capUpper (v : List (Option ℚ)) : ℚ :=
  quantile (nonnull v) (3 / 4) +
    (3 / 2) * (quantile (nonnull v) (3 / 4) - quantile (nonnull v) (1 / 4))

/-- `_handle_outliers`: per listed column, skip absent or non-numeric ones;
`remove` drops out-of-bound rows, `cap` clips, `log_transform` applies
`log1p` (shifting when the minimum is non-positive).  Any other method
string (including the normalizer's `'log'`) matches no branch and leaves
the column untouched. -/
def handleOutliers (S : StatsLib) (df : Table) (columns : List String)
    (method : String) : Table :=
  match columns with
  | [] => df
  | col :: rest =>
    let dfNext :=
      match df.getCol col with
      | none => df
      | some (.num v) =>
        if method = "remove" then
          let nn := nonnull v
          let q1 := quantile nn (1 / 4)
          let q3 := quantile nn (3 / 4)
          let iqr := q3 - q1
          let lower := q1 - (3 / 2) * iqr
          let upper := q3 + (3 / 2) * iqr
          df.keepRows fun i =>
            match v.getD i none with
            | some x => decide (lower ≤ x) && decide (x ≤ upper)
            | none => false
        else if method = "cap" then df.setCol col (.num (capColumn v))
        else if method = "log_transform" then
          let mn := listMin (nonnull v)
          if mn ≤ 0 then
            df.setCol col (.num (v.map (Option.map fun x => S.log1p (x - mn + 1))))
          else df.setCol col (.num (v.map (Option.map S.log1p)))
        else df
      | some _ => df
    handleOutliers S dfNext rest method

/-- The resampler-selection logic of `_handle_imbalanced_data` (lines
500-532): `smote` degrades to `RandomOverSampler` when the smallest class
has fewer than 2 members and otherwise uses
`k_neighbors = min(5, min_samples - 1)`; an unknown method selects no
sampler.  (With no classes at all, `class_counts.min()` is NaN, `NaN < 2`
is false and CPython's `min(5, NaN - 1)` returns 5.) -/
def samplerForMethod (yNN : List CellV) (method : String) : Option SamplerChoice :=
  if method = "smote" then
    let counts := valueCounts yNN
    if counts.isEmpty then some (.smote 5)
    else
      let minSamples := minNat counts
      if minSamples < 2 then some .randomOver
      else some (.smote (Nat.min 5 (minSamples - 1)))
  else if method = "oversample" then some .randomOver
  else if method = "undersample" then some .randomUnder
  else none

/-- `_handle_imbalanced_data`: skip if the target column is absent; drop
rows with a missing target; select the resampler; one-hot encoding of the
features, the resampling itself and the rebuild of the feature frame are
`pandas`/`imblearn` collaborator work (`S.fitResample`), with `none`
modelling the caught exception path, which returns the (target-dropna'd)
table; on success the target column is re-attached at the end. -/
def handleImbalancedData (S : StatsLib) (df : Table) (target : String)
    (method : String) : Table :=
  match df.getCol target with
  | none => df
  | some c0 =>
    let df1 :=
      if c0.nullCount > 0 then df.keepRows fun i => (c0.cellAt i).isSome
      else df
    let c := (df1.getCol target).getD c0
    match samplerForMethod c.nonnullCells method with
    | none => df1
    | some choice =>
      match S.fitResample choice (df1.dropColumns [target]) c with
      | none => df1
      | some (xr, yr) => xr.addCol target yr

/-- `_handle_categorical`: `normalize` case/whitespace-folds and restores
nulls; `label_encode` assigns the lexicographic index of each distinct
stringified value (nulls restored); `one_hot` expands an object column into
0/1 indicator columns (sorted categories, then the null indicator) appended
at the end.  The one-hot branch is modelled for object columns only (the
detector flags only object columns). -/
def handleCategorical (S : StatsLib) (df : Table) (columns : List String)
    (method : String) : Table :=
  match columns with
  | [] => df
  | col :: rest =>
    let dfNext :=
      match df.getCol col with
      | none => df
      | some c =>
        if method = "normalize" then
          df.setCol col (.str
            (((c.astypeStr S).map fun s => s.toLower.trim).zipWith
              (fun s isna => if isna then none else some s) c.naMask))
        else if method = "label_encode" then
          let filledStrs :=
            match c with
            | .str v => v.map fun o => o.getD "__MISSING__"
            | .num v => v.map fun o =>
                match o with
                | some q => S.floatToStr (some q)
                | none => "__MISSING__"
            | .dt v => v.map fun o =>
                match o with
                | some d => S.tsToStr (some d)
                | none => "__MISSING__"
          let classes := List.insertionSort (· ≤ ·) (uniqueVals filledStrs)
          df.setCol col (.num
            ((filledStrs.map fun s => ((classes.indexOf s : ℕ) : ℚ)).zipWith
              (fun q isna => if isna then none else some q) c.naMask))
        else if method = "one_hot" then
          match c with
          | .str v =>
            let cats := List.insertionSort (· ≤ ·) (uniqueVals (nonnull v))
            let dummies := cats.map fun cat =>
              (col ++ "_" ++ cat,
               Col.num (v.map fun o => some (if o = some cat then (1 : ℚ) else 0)))
            let nanCol :=
              (col ++ "_nan",
               Col.num (v.map fun o => some (if o.isNone then (1 : ℚ) else 0)))
            ⟨(df.cols.filter fun p => p.fst ≠ col) ++ dummies ++ [nanCol]⟩
          | _ => df
        else df
    handleCategorical S dfNext rest method

/-- Zero-padded 2-digit field of `strftime`. -/
def pad2 (n : ℕ) : String := if n < 10 then "0" ++ toString n else toString n

/-- Zero-padded 4-digit field of `strftime`. -/
def pad4 (n : ℕ) : String :=
  if n < 10 then "000" ++ toString n
  else if n < 100 then "00" ++ toString n
  else if n < 1000 then "0" ++ toString n
  else toString n

/-- `strftime` over the `%Y`/`%m`/`%d` directives the engine uses. -/
def strfChars (d : DateT) : List Char → String
  | [] => ""
  | '%' :: c :: rest =>
    (if c = 'Y' then pad4 d.1
     else if c = 'm' then pad2 d.2.1
     else if c = 'd' then pad2 d.2.2
     else String.mk ['%', c]) ++ strfChars d rest
  | c :: rest => String.singleton c ++ strfChars d rest

/-- `Series.dt.strftime` on one date. -/
def strftime (fmt : String) (d : DateT) : String := strfChars d fmt.data

/-- `_handle_dates`: `convert` parses permissively (collaborator
`S.toDatetime`, NaT on failure) and reformats to the `format` parameter
(default `%Y-%m-%d`); `extract` parses and appends year/month/day columns
for the requested parts.  Any other method string (including the
normalizer's `'standardize'` and `'extract_components'`) matches no branch.
Modelled for object columns (the detector flags only object columns). -/
def handleDates (S : StatsLib) (df : Table) (columns : List String)
    (method : String) (parameters : Params) : Table :=
  match columns with
  | [] => df
  | col :: rest =>
    let dfNext :=
      match df.getCol col with
      | none => df
      | some c =>
        if method = "convert" then
          match c with
          | .str v =>
            let parsed := v.map fun o => o.bind S.toDatetime
            let fmt := parameters.format.getD "%Y-%m-%d"
            df.setCol col (.str (parsed.map (Option.map (strftime fmt))))
          | _ => df
        else if method = "extract" then
          match c with
          | .str v =>
            let parsed := v.map fun o => o.bind S.toDatetime
            let base := df.setCol col (.dt parsed)
            let pts := parameters.parts.getD ["year", "month", "day"]
            let b1 :=
              if "year" ∈ pts then
                base.addCol (col ++ "_year")
                  (.num (parsed.map (Option.map fun d => (d.1 : ℚ))))
              else base
            let b2 :=
              if "month" ∈ pts then
                b1.addCol (col ++ "_month")
                  (.num (parsed.map (Option.map fun d => (d.2.1 : ℚ))))
              else b1
            if "day" ∈ pts then
              b2.addCol (col ++ "_day")
                (.num (parsed.map (Option.map fun d => (d.2.2 : ℚ))))
            else b2
          | _ => df
        else df
    handleDates S dfNext rest method parameters

/-- The fixed stopword set of `_handle_text`. -/
def stopwords : List String :=
  ["the", "a", "an", "and", "or", "but", "in", "on", "at", "to", "for"]

/-- `_handle_text`: `lowercase`, `remove_punctuation` (keep word characters
and whitespace) and `remove_stopwords`.  All three go through
`astype(str)`/`str(x)` first, so nulls become the literal string "nan" and
are not restored (unlike `_handle_categorical`'s `normalize`). -/
def handleText (S : StatsLib) (df : Table) (columns : List String)
    (method : String) : Table :=
  match columns with
  | [] => df
  | col :: rest =>
    let dfNext :=
      match df.getCol col with
      | none => df
      | some c =>
        if method = "lowercase" then
          df.setCol col (.str ((c.astypeStr S).map fun s => some s.toLower))
        else if method = "remove_punctuation" then
          df.setCol col (.str ((c.astypeStr S).map fun s =>
            some (String.mk (s.data.filter fun ch =>
              ch.isAlphanum || ch = '_' || ch.isWhitespace))))
        else if method = "remove_stopwords" then
          df.setCol col (.str ((c.astypeStr S).map fun s =>
            some (String.intercalate " "
              ((s.split Char.isWhitespace).filter fun w =>
                w ≠ "" ∧ w.toLower ∉ stopwords))))
        else df
    handleText S dfNext rest method

end DP

namespace DP

/-! ## The skewness executor (`_handle_skewness`) -/

/-- The log-transform step of `_handle_skewness` and `_handle_outliers`:
`np.log1p(x - min + 1)` when the column minimum is non-positive, otherwise
`np.log1p(x)` (null cells stay null). -/
def skLogVals (S : StatsLib) (v : List (Option ℚ)) : List (Option ℚ) :=
  let mn := listMin (nonnull v)
  if mn ≤ 0 then v.map (Option.map fun x => S.log1p (x - mn + 1))
  else v.map (Option.map S.log1p)

/-- The Box-Cox attempt of `_handle_skewness` (inside `try`/`except`),
starting from the log-transformed column `post`: bail out (keeping `post`)
if the range is below 0.01; shift to a positive domain if needed; on a
Box-Cox exception (`S.boxcox = none`) the column keeps the values it had at
the raise site - i.e. the *shifted* log values, although the source's
message says "keeping log transform". -/
def boxcoxPart (S : StatsLib) (post : List (Option ℚ)) : List (Option ℚ) :=
  let pnn := nonnull post
  if listMax pnn - listMin pnn < 1 / 100 then post
  else
    let shifted :=
      if listMin pnn ≤ 0 then post.map (Option.map fun x => x - listMin pnn + 1)
      else post
    match S.boxcox shifted with
    | some res => res
    | none => shifted

/-- `_handle_skewness` on one numeric column: skip when there are fewer
than 5 distinct values or the range is below 0.01; always log-transform
first; revert to the original values when the transformed range collapses
below 0.01 or when `|skew_after| >= 0.9 * |skew_before|` (less than 10%
improvement); attempt Box-Cox only when `|skew_after| > 0.9`. -/
def handleSkewCol (S : StatsLib) (v : List (Option ℚ)) : List (Option ℚ) :=
  if nuniqueL (nonnull v) < 5 then v
  else if listMax (nonnull v) - listMin (nonnull v) < 1 / 100 then v
  else
    let post := skLogVals S v
    if listMax (nonnull post) - listMin (nonnull post) < 1 / 100 then v
    else if |S.skew (nonnull v)| * (9 / 10) ≤ |S.skew (nonnull post)| then v
    else if 9 / 10 < |S.skew (nonnull post)| then boxcoxPart S post
    else post

/-- `_handle_skewness`: per listed column, skip absent and non-numeric
columns, then apply `handleSkewCol`.  The `method` argument is accepted but
- exactly as in the source - never read. -/
def handleSkewness (S : StatsLib) (df : Table) (columns : List String)
    (method : String) : Table :=
  match columns with
  | [] => df
  | col :: rest =>
    let dfNext :=
      match df.getCol col with
      | some (.num v) => df.setCol col (.num (handleSkewCol S v))
      | _ => df
    handleSkewness S dfNext rest method

/-! ## Remaining executors -/

/-- `_remove_columns` (constant-value fix): drop the listed columns that
exist. -/
def removeColumns (df : Table) (columns : List String) : Table :=
  df.dropColumns columns

/-- `_handle_high_cardinality`: `group_rare` folds categories occurring in
fewer than 1% of rows into the sentinel `"Other"`.  Modelled for object
columns (the detector flags only object columns). -/
def handleHighCardinality (df : Table) (columns : List String)
    (method : String) : Table :=
  match columns with
  | [] => df
  | col :: rest =>
    let dfNext :=
      match df.getCol col with
      | some (.str v) =>
        if method = "group_rare" then
          let threshold : ℚ := (df.nRows : ℚ) * (1 / 100)
          let rare := (uniqueVals (nonnull v)).filter fun cat =>
            ((nonnull v).count cat : ℚ) < threshold
          if rare.isEmpty then df
          else
            df.setCol col (.str (v.map (Option.map fun s =>
              if s ∈ rare then "Other" else s)))
        else df
      | _ => df
    handleHighCardinality dfNext rest method

/-- `_handle_correlated_features`: drop the first half of the listed
columns. -/
def handleCorrelatedFeatures (df : Table) (columns : List String) : Table :=
  if columns.length > 0 then
    df.dropColumns (columns.take (columns.length / 2))
  else df

/-- `_handle_inconsistent_types`: per column, coerce to text when the
distinct-value ratio exceeds 50% of the row count, else coerce to numeric
when more than 70% of the non-null values parse, else to text.  On an empty
table `unique_count / row_count` raises `ZeroDivisionError` (this division
happens before the handler's internal `try`), which propagates to the
per-action boundary of the callers. -/
def handleInconsistentTypes (S : StatsLib) (df : Table) :
    List String → Except String Table
  | [] => .ok df
  | col :: rest =>
    match df.getCol col with
    | none => handleInconsistentTypes S df rest
    | some c =>
      if df.nRows = 0 then .error "division by zero"
      else
        let dfNext :=
          if (1 / 2 : ℚ) < (c.nunique : ℚ) / (df.nRows : ℚ) then
            df.setCol col (.str ((c.astypeStr S).map some))
          else
            match c with
            | .str v =>
              let converted := v.map fun o => o.bind parseNumeric
              let nonNullCount := (nonnull v).length
              let numericCount := (nonnull converted).length
              if nonNullCount = 0 then
                -- numpy's 0/0 is NaN; NaN > 0.7 is false, so coerce to text
                df.setCol col (.str ((c.astypeStr S).map some))
              else if (7 / 10 : ℚ) < (numericCount : ℚ) / (nonNullCount : ℚ) then
                df.setCol col (.num converted)
              else df.setCol col (.str ((c.astypeStr S).map some))
            | .num v =>
              -- to_numeric is the identity here; the 100% ratio passes 70%
              if (nonnull v).length = 0 then
                df.setCol col (.str ((c.astypeStr S).map some))
              else df
            | .dt v =>
              if (nonnull v).length = 0 then
                df.setCol col (.str ((c.astypeStr S).map some))
              else df.setCol col (.num (v.map (Option.map S.tsToNum)))
        handleInconsistentTypes S dfNext rest

end DP

namespace DP

/-! ## Action dispatch (`_apply_action`) -/

/-- `_apply_action`: normalize the method name, then dispatch to the
per-issue-type executor.  Unknown issue types fall through to the warning
branch and return the table unchanged.  The `Except` models Python
exceptions escaping the handler (`ZeroDivisionError` in
`_handle_inconsistent_types`). -/
def applyActionE (S : StatsLib) (df : Table) (a : Action) :
    Except String Table :=
  let method := normalizeMethodName a.method a.issue_type
  match a.issue_type with
  | .missing_values => .ok (handleMissingValues df a.columns method)
  | .duplicates => .ok (handleDuplicates df method)
  | .outliers => .ok (handleOutliers S df a.columns method)
  | .categorical_inconsistencies => .ok (handleCategorical S df a.columns method)
  | .wrong_date_format => .ok (handleDates S df a.columns method a.parameters)
  | .noisy_text => .ok (handleText S df a.columns method)
  | .constant_values => .ok (removeColumns df a.columns)
  | .skewness => .ok (handleSkewness S df a.columns method)
  | .high_cardinality => .ok (handleHighCardinality df a.columns method)
  | .correlated_features => .ok (handleCorrelatedFeatures df a.columns)
  | .inconsistent_types => handleInconsistentTypes S df a.columns
  | .imbalanced_data =>
    match a.parameters.target_column.orElse (fun _ => a.columns.head?) with
    | none => .ok df
    | some target => .ok (handleImbalancedData S df target method)
  | _ => .ok df

/-! ## Action recommendation (`_get_recommended_action`) -/

/-- `_get_recommended_action`: the fixed kind-to-method table;
`imbalanced_data` (and the unhandled kinds) get no action. -/
def getRecommendedAction (issue : DataIssue) : Option Action :=
  match issue.type with
  | .missing_values =>
    some ⟨issue.type, issue.affected_columns, "mode", {}⟩
  | .duplicates =>
    some ⟨issue.type, issue.affected_columns, "remove", {}⟩
  | .outliers =>
    some ⟨issue.type, issue.affected_columns, "cap", {}⟩
  | .categorical_inconsistencies =>
    some ⟨issue.type, issue.affected_columns, "normalize", {}⟩
  | .wrong_date_format =>
    some ⟨issue.type, issue.affected_columns, "convert",
      { format := some "%Y-%m-%d" }⟩
  | .noisy_text =>
    some ⟨issue.type, issue.affected_columns, "lowercase", {}⟩
  | .constant_values =>
    some ⟨issue.type, issue.affected_columns, "remove", {}⟩
  | .skewness =>
    some ⟨issue.type, issue.affected_columns, "box_cox", {}⟩
  | .high_cardinality =>
    some ⟨issue.type, issue.affected_columns, "group_rare", {}⟩
  | .correlated_features =>
    some ⟨issue.type, issue.affected_columns, "remove_correlated", {}⟩
  | .inconsistent_types =>
    some ⟨issue.type, issue.affected_columns, "convert", {}⟩
  | .imbalanced_data => none
  | _ => none

/-! ## FailureMemory and the action log -/

/-- Python `set.update`: add the listed columns that are not yet present
(sets are modelled as first-insertion-ordered duplicate-free lists). -/
def updateSet (s : List String) (new : List String) : List String :=
  new.foldl (fun acc c => if c ∈ acc then acc else acc ++ [c]) s

/-- A `"success"` log record. -/
def successEntry (iter : Option ℕ) (a : Action) : LogEntry :=
  { iteration := iter, issue_type := a.issue_type, columns := a.columns,
    method := a.method, status := "success" }

/-- A `"failed"` log record carrying the error description. -/
def failedEntry (iter : Option ℕ) (a : Action) (msg : String) : LogEntry :=
  { iteration := iter, issue_type := a.issue_type, columns := a.columns,
    method := a.method, status := "failed", error := some msg }

/-- The `"removed"` record written when a skewness action was a no-op. -/
def removedEntry (iter : Option ℕ) (a : Action) : LogEntry :=
  { iteration := iter, issue_type := a.issue_type, columns := a.columns,
    method := "remove_column", status := "removed",
    reason := some "transformation_ineffective" }

/-- The `"skipped"` record of `preprocess_dataset` when every column of a
skewness action has already failed. -/
def skippedEntry (a : Action) : LogEntry :=
  { iteration := none, issue_type := a.issue_type, columns := a.columns,
    method := a.method, status := "skipped",
    reason := some "all_columns_unfixable" }

/-- Result of applying one action inside the per-action `try` boundary. -/
structure StepOut where
  df : Table
  failed : List String
  entry : LogEntry
  saves : List (List String)
deriving DecidableEq, Repr

/-- The shared per-action `try` body of `preprocess_dataset` (lines 61-101)
and `fix_all_issues` (lines 836-881): apply the action; on an exception
record a `"failed"` entry and keep the previous table; if a skewness action
left the table bitwise-identical, drop its columns, extend FailureMemory,
persist it (one entry of `saves`) and record `"removed"`; otherwise record
`"success"`. -/
def tryApply (S : StatsLib) (iter : Option ℕ) (df : Table)
    (failed : List String) (a : Action) : StepOut :=
  match applyActionE S df a with
  | .error msg => ⟨df, failed, failedEntry iter a msg, []⟩
  | .ok df2 =>
    if a.issue_type = .skewness ∧ df2 = df then
      let failed2 := updateSet failed a.columns
      ⟨df2.dropColumns a.columns, failed2, removedEntry iter a, [failed2]⟩
    else ⟨df2, failed, successEntry iter a, []⟩

/-- Accumulated result of a batch of actions. -/
structure BatchOut where
  df : Table
  failed : List String
  log : List LogEntry
  saves : List (List String)
deriving DecidableEq, Repr

/-! ## The convergence loop (`fix_all_issues`) -/

/-- Apply one iteration's sorted action list (the `for action in actions`
loop of `fix_all_issues`). -/
def fixApplyActions (S : StatsLib) (iter : ℕ) (df : Table)
    (failed : List String) : List Action → BatchOut
  | [] => ⟨df, failed, [], []⟩
  | a :: rest =>
    let s := tryApply S (some iter) df failed a
    let r := fixApplyActions S iter s.df s.failed rest
    ⟨r.df, r.failed, s.entry :: r.log, s.saves ++ r.saves⟩

/-- The issue-to-action step of an iteration: one recommended action per
issue, skipping `imbalanced_data`, with skewness columns filtered against
FailureMemory and the action dropped if nothing fixable remains. -/
def buildActions (failed : List String) : List DataIssue → List Action
  | [] => []
  | i :: rest =>
    match getRecommendedAction i with
    | none => buildActions failed rest
    | some a =>
      if a.issue_type = .skewness then
        let fixable := a.columns.filter fun c => c ∉ failed
        if fixable.isEmpty then buildActions failed rest
        else { a with columns := fixable } :: buildActions failed rest
      else a :: buildActions failed rest

/-- The fixed priority of `fix_all_issues`' `action_order` mapping
(default 99 for kinds not listed). -/
def actionOrder : IssueType → ℕ
  | .duplicates => 1
  | .constant_values => 2
  | .correlated_features => 3
  | .high_cardinality => 4
  | .categorical_inconsistencies => 5
  | .inconsistent_types => 6
  | .outliers => 7
  | .skewness => 8
  | .noisy_text => 9
  | .wrong_date_format => 10
  | .missing_values => 11
  | _ => 99

/-- Why the `while` loop of `fix_all_issues` stopped. -/
inductive Terminal where
  | converged
  | noActionable
  | exhausted
deriving DecidableEq, Repr

/-- The state returned by the convergence loop. -/
structure FixResult where
  df : Table
  failed : List String
  log : List LogEntry
  saves : List (List String)
  iterations : ℕ
  detectCount : ℕ
  terminal : Terminal
deriving DecidableEq, Repr

/-- The `while iteration < max_iterations` loop of `fix_all_issues`,
written with the remaining iteration budget as fuel: each entered iteration
increments the iteration counter, runs one detection pass
(`_analyze_dataframe`), stops on no issues (`converged`) or no buildable
actions (`noActionable`), otherwise applies the priority-sorted actions
(Python's stable sort is modelled by the stable `insertionSort`) and
repeats; spent fuel is the `exhausted` exit. -/
def fixLoop (S : StatsLib) (fuel : ℕ) (df : Table) (failed : List String)
    (iter detect : ℕ) : FixResult :=
  match fuel with
  | 0 => ⟨df, failed, [], [], iter, detect, .exhausted⟩
  | fuel' + 1 =>
    let issues := analyzeDataframe S df failed
    if issues.isEmpty then ⟨df, failed, [], [], iter + 1, detect + 1, .converged⟩
    else
      let actions := buildActions failed issues
      if actions.isEmpty then
        ⟨df, failed, [], [], iter + 1, detect + 1, .noActionable⟩
      else
        let sorted := List.insertionSort
          (fun a b => actionOrder a.issue_type ≤ actionOrder b.issue_type)
          actions
        let batch := fixApplyActions S (iter + 1) df failed sorted
        let r := fixLoop S fuel' batch.df batch.failed (iter + 1) (detect + 1)
        ⟨r.df, r.failed, batch.log ++ r.log, batch.saves ++ r.saves,
         r.iterations, r.detectCount, r.terminal⟩

/-- The full result of one `fix_all_issues` run. -/
structure FixRun where
  df : Table
  failed : List String
  log : List LogEntry
  saves : List (List String)
  iterations : ℕ
  detectCount : ℕ
  terminal : Terminal
  finalIssues : List DataIssue
deriving DecidableEq, Repr

/-- `fix_all_issues`: load FailureMemory, run the convergence loop with
`max_iterations = 5`, then run one more detection pass on the final table
for the remaining-issue report (line 890). -/
def fixAllIssues (S : StatsLib) (df0 : Table) (failed0 : List String) :
    FixRun :=
  let core := fixLoop S 5 df0 failed0 0 0
  ⟨core.df, core.failed, core.log, core.saves, core.iterations,
   core.detectCount + 1, core.terminal,
   analyzeDataframe S core.df core.failed⟩

/-! ## Single-pass preprocessing (`preprocess_dataset`) -/

/-- One action of the `preprocess_dataset` loop: skewness actions are first
filtered against FailureMemory (a fully-failed action is recorded as
`"skipped"` and not applied), then applied inside the `try` boundary. -/
def preprocessOne (S : StatsLib) (df : Table) (failed : List String)
    (a : Action) : StepOut :=
  if a.issue_type = .skewness then
    let fixable := a.columns.filter fun c => c ∉ failed
    if fixable.isEmpty then ⟨df, failed, skippedEntry a, []⟩
    else tryApply S none df failed { a with columns := fixable }
  else tryApply S none df failed a

/-- The `for action in actions` loop of `preprocess_dataset`. -/
def processActions (S : StatsLib) (df : Table) (failed : List String) :
    List Action → BatchOut
  | [] => ⟨df, failed, [], []⟩
  | a :: rest =>
    let s := preprocessOne S df failed a
    let r := processActions S s.df s.failed rest
    ⟨r.df, r.failed, s.entry :: r.log, s.saves ++ r.saves⟩

/-- The result of a `preprocess_dataset` call. -/
structure PreprocessOut where
  df : Table
  failed : List String
  log : List LogEntry
  saves : List (List String)
  remainingIssues : ℕ
deriving DecidableEq, Repr

/-- `preprocess_dataset`: apply the caller-selected actions, then
re-analyze for the remaining-issue count. -/
def preprocessDataset (S : StatsLib) (df0 : Table) (failed0 : List String)
    (actions : List Action) : PreprocessOut :=
  let b := processActions S df0 failed0 actions
  ⟨b.df, b.failed, b.log, b.saves,
   (analyzeDataframe S b.df b.failed).length⟩

end DP

namespace DP

/-! ## Concrete instances used by witnesses and counterexamples -/

/-- A concrete instantiation of the statistical collaborators, used to
evaluate the engine on closed inputs: `log1p` scales by 1/100, the skew
statistic distinguishes small-sum from large-sum columns, and the
exception-prone collaborators always raise. -/
def qlib : StatsLib where
  log1p := fun x => x / 100
  skew := fun l => if l.sum ≤ 10 then 1 / 2 else 50
  corr := fun _ _ => 0
  boxcox := fun _ => none
  toDatetime := fun _ => none
  floatToStr := fun _ => "nan"
  tsToStr := fun _ => "NaT"
  tsToNum := fun _ => 0
  fitResample := fun _ _ _ => none

/-- A table whose only issue is a noisy text column that the recommended
`lowercase` fix can never repair (the strings are already lower-case and
keep their special characters). -/
def noisyTable : Table :=
  ⟨[("txt", .str [some "a!!", some "b??", some "c$$"])]⟩

/-- A table on which no detector fires (for any collaborator): three
distinct numeric values are too few for the outlier (needs 4 non-null) and
skewness (needs 5 distinct) detectors. -/
def cleanTable : Table := ⟨[("x", .num [some 1, some 2, some 3])]⟩

/-- A numeric column that `qlib`'s log transform improves: the sum drops
from 150 (skew 50) to 1.5 (skew 1/2), well under the 90% bar. -/
def aVals : List (Option ℚ) := [some 10, some 20, some 30, some 40, some 50]

/-- A numeric column that `qlib`'s log transform does not improve: both the
original sum 20000 and the transformed sum 200 exceed 10, so the skew stays
at 50 and the 10%-improvement test fails. -/
def bVals : List (Option ℚ) :=
  [some 2000, some 3000, some 4000, some 5000, some 6000]

/-- Two-column table: the skewness action improves `a` and reverts `b`. -/
def abTable : Table := ⟨[("a", .num aVals), ("b", .num bVals)]⟩

/-- The recommender's skewness action over both columns. -/
def skewActAB : Action := ⟨.skewness, ["a", "b"], "box_cox", {}⟩

/-- Single-column table on which the skewness action is a whole-table
no-op. -/
def bTable : Table := ⟨[("b", .num bVals)]⟩

/-- The skewness action on `bTable`. -/
def skewActB : Action := ⟨.skewness, ["b"], "box_cox", {}⟩

/-- The spec's outlier example column `[20, 21, 19, 22, 1000]`. -/
def capVals : List (Option ℚ) :=
  [some 20, some 21, some 19, some 22, some 1000]

/-- Table holding `capVals` under the name `age`. -/
def capTable : Table := ⟨[("age", .num capVals)]⟩

/-- A table with a column and no rows: `_handle_inconsistent_types` divides
by the row count and raises `ZeroDivisionError` on it. -/
def emptyRowTable : Table := ⟨[("c", .str [])]⟩

/-- An inconsistent-types action on the empty-row table. -/
def inconsAct : Action := ⟨.inconsistent_types, ["c"], "convert", {}⟩

/-- A wrongly formatted date column. -/
def dateTable : Table :=
  ⟨[("d", .str [some "01/02/2020", some "03/04/2021", some "05/06/2022"])]⟩

/-- The auto-fix recommender's date action: method `convert`, canonical
format `%Y-%m-%d`. -/
def dateAct : Action :=
  ⟨.wrong_date_format, ["d"], "convert", { format := some "%Y-%m-%d" }⟩

/-- A small numeric table for the outlier log-transform action. -/
def xTable : Table := ⟨[("x", .num [some 1, some 2, some 3])]⟩

/-- An outliers action requesting the log-transform method. -/
def logAct : Action := ⟨.outliers, ["x"], "log_transform", {}⟩

/-- A target column whose smallest class has one member. -/
def yOneSmall : List CellV := [.s "a", .s "a", .s "b"]

/-- A target column whose classes have 2 and 3 members. -/
def yAllTwo : List CellV := [.s "a", .s "a", .s "b", .s "b", .s "b"]

/-! ## FailureMemory chains -/

/-- `SaveChain f saves g`: starting from the loaded set `f`, each
successive persisted FailureMemory state contains the previous one, and the
final in-memory set `g` contains the last persisted state (equivalently
`f ⊆ s₁ ⊆ s₂ ⊆ ... ⊆ g`): the append-only property of the claim. -/
def SaveChain : List String → List (List String) → List String → Prop
  | f, [], g => f ⊆ g
  | f, s :: rest, g => f ⊆ s ∧ SaveChain s rest g

end DP

namespace DP

/-! ## General lemmas: quantiles and clipping -/

theorem nonnull_map (f : α → β) (v : List (Option α)) :
    nonnull (v.map (Option.map f)) = (nonnull v).map f := by
  induction v with
  | nil => rfl
  | cons o rest ih =>
    cases o <;> simp [nonnull, List.filterMap_cons] at ih ⊢ <;> exact ih

theorem listGetD_mono (s : List ℚ) (hs : List.Sorted (· ≤ ·) s) {i j : ℕ}
    (hij : i ≤ j) (hj : j < s.length) : s.getD i 0 ≤ s.getD j 0 := by
  have hi : i < s.length := lt_of_le_of_lt hij hj
  rw [List.getD_eq_getElem s 0 hi, List.getD_eq_getElem s 0 hj]
  rcases eq_or_lt_of_le hij with rfl | hlt
  · exact le_refl _
  · exact List.pairwise_iff_getElem.mp hs i j hi hj hlt

theorem interpAt_bounds (s : List ℚ) (hs : List.Sorted (· ≤ ·) s) (h : ℚ)
    (h0 : 0 ≤ h) (hn : h ≤ (s.length : ℚ) - 1) :
    s.getD (Int.toNat ⌊h⌋) 0 ≤ interpAt s h ∧
      interpAt s h ≤ s.getD (Int.toNat ⌈h⌉) 0 := by
  have hn1 : (1 : ℚ) ≤ (s.length : ℚ) := by linarith
  have hcl : ⌈h⌉ ≤ (s.length : ℤ) - 1 := by
    rw [Int.ceil_le]; push_cast; linarith
  have hfl0 : (0 : ℤ) ≤ ⌊h⌋ := Int.floor_nonneg.mpr h0
  have hflc : ⌊h⌋ ≤ ⌈h⌉ := Int.floor_le_ceil h
  have hjlt : Int.toNat ⌈h⌉ < s.length := by omega
  have hab : s.getD (Int.toNat ⌊h⌋) 0 ≤ s.getD (Int.toNat ⌈h⌉) 0 :=
    listGetD_mono s hs (by omega) hjlt
  have hfr0 : 0 ≤ h - (⌊h⌋ : ℚ) := sub_nonneg.mpr (Int.floor_le h)
  have hfr1 : h - (⌊h⌋ : ℚ) ≤ 1 := by
    have := Int.lt_floor_add_one h; push_cast at this ⊢; linarith
  unfold interpAt
  constructor
  · nlinarith [mul_nonneg hfr0 (sub_nonneg.mpr hab)]
  · nlinarith [mul_nonneg (sub_nonneg.mpr hfr1) (sub_nonneg.mpr hab)]

theorem interpAt_mono (s : List ℚ) (hs : List.Sorted (· ≤ ·) s)
    {h h' : ℚ} (h0 : 0 ≤ h) (hh : h ≤ h') (hn : h' ≤ (s.length : ℚ) - 1) :
    interpAt s h ≤ interpAt s h' := by
  have h0' : 0 ≤ h' := le_trans h0 hh
  have hhn : h ≤ (s.length : ℚ) - 1 := le_trans hh hn
  have hb := interpAt_bounds s hs h h0 hhn
  have hb' := interpAt_bounds s hs h' h0' hn
  have hcl' : ⌈h'⌉ ≤ (s.length : ℤ) - 1 := by
    rw [Int.ceil_le]; push_cast; linarith
  have hff : ⌊h⌋ ≤ ⌊h'⌋ := Int.floor_le_floor hh
  have hfl0 : (0 : ℤ) ≤ ⌊h⌋ := Int.floor_nonneg.mpr h0
  by_cases hc : ⌈h⌉ ≤ ⌊h'⌋
  · have hfl' : Int.toNat ⌊h'⌋ < s.length := by
      have := Int.floor_le_ceil h'
      omega
    have hmid : s.getD (Int.toNat ⌈h⌉) 0 ≤ s.getD (Int.toNat ⌊h'⌋) 0 :=
      listGetD_mono s hs (by omega) hfl'
    exact le_trans hb.2 (le_trans hmid hb'.1)
  · push_neg at hc
    have hcf : ⌈h⌉ ≤ ⌊h⌋ + 1 := Int.ceil_le_floor_add_one h
    have hfeq : ⌊h'⌋ = ⌊h⌋ := by omega
    have hceil : ⌈h⌉ = ⌊h⌋ + 1 := by omega
    rcases eq_or_lt_of_le (Int.floor_le_ceil h') with hceq' | hclt'
    · have hint : h' = (⌊h'⌋ : ℚ) := by
        have h1 := Int.floor_le h'
        have h2 := Int.le_ceil h'
        rw [← hceq'] at h2
        linarith
      have heq : h = h' := le_antisymm hh
        (by rw [hint, hfeq]; exact_mod_cast Int.floor_le h)
      rw [heq]
    · have hceil' : ⌈h'⌉ = ⌊h'⌋ + 1 := by
        have := Int.ceil_le_floor_add_one h'
        omega
      have hflk : Int.toNat (⌊h⌋ + 1) < s.length := by omega
      have hab : s.getD (Int.toNat ⌊h⌋) 0 ≤ s.getD (Int.toNat (⌊h⌋ + 1)) 0 :=
        listGetD_mono s hs (by omega) hflk
      unfold interpAt
      rw [hfeq, hceil', hfeq, hceil]
      nlinarith [mul_nonneg (sub_nonneg.mpr hh) (sub_nonneg.mpr hab)]

theorem quantile_mono (l : List ℚ) (hl : l ≠ []) {q q' : ℚ}
    (h0 : 0 ≤ q) (hqq : q ≤ q') (h1 : q' ≤ 1) :
    quantile l q ≤ quantile l q' := by
  unfold quantile
  have hlen : (List.insertionSort (· ≤ ·) l).length = l.length :=
    List.length_insertionSort (· ≤ ·) l
  have hn1 : 1 ≤ l.length := List.length_pos.mpr hl
  have hn1q : (1 : ℚ) ≤ (l.length : ℚ) := by exact_mod_cast hn1
  apply interpAt_mono _ (List.sorted_insertionSort (· ≤ ·) l)
  · exact mul_nonneg (by linarith) h0
  · exact mul_le_mul_of_nonneg_left hqq (by linarith)
  · rw [hlen]
    nlinarith [mul_nonneg (by linarith : (0 : ℚ) ≤ (l.length : ℚ) - 1)
      (by linarith : (0 : ℚ) ≤ 1 - q')]

theorem capLower_le_capUpper (v : List (Option ℚ)) (hv : nonnull v ≠ []) :
    capLower v ≤ capUpper v := by
  have hq : quantile (nonnull v) (1 / 4) ≤ quantile (nonnull v) (3 / 4) :=
    quantile_mono (nonnull v) hv (by norm_num) (by norm_num) (by norm_num)
  unfold capLower capUpper
  linarith

theorem capColumn_within (v : List (Option ℚ)) (hv : nonnull v ≠ []) :
    ∀ x ∈ nonnull (capColumn v), capLower v ≤ x ∧ x ≤ capUpper v := by
  intro x hx
  have hlu : capLower v ≤ capUpper v := capLower_le_capUpper v hv
  rw [capColumn] at hx
  rw [if_neg (by simpa [List.isEmpty_iff] using hv)] at hx
  rw [nonnull_map] at hx
  obtain ⟨y, hy, rfl⟩ := List.mem_map.mp hx
  refine ⟨le_max_left _ _, ?_⟩
  exact max_le (by simpa [capLower, capUpper] using hlu)
    (le_trans (min_le_right _ _) (by simp [capUpper]))

end DP

namespace DP

/-! ## General lemmas: batches, loops and FailureMemory -/

theorem find?_setCol (cols : List (String × Col)) (col : String) (c : Col)
    (h : (cols.find? fun p => p.fst = col).isSome) :
    ((cols.map fun p => if p.fst = col then (p.fst, c) else p).find?
      fun p => p.fst = col) = some (col, c) := by
  induction cols with
  | nil => simp at h
  | cons p rest ih =>
    by_cases hp : p.fst = col
    · subst hp
      simp
    · rw [List.find?_cons_of_neg _ (by simpa using hp)] at h
      simpa [hp] using ih h

theorem getCol_setCol (df : Table) (col : String) (c : Col)
    (h : (df.getCol col).isSome) : (df.setCol col c).getCol col = some c := by
  have hf : ((df.cols.find? fun p => p.fst = col).map Prod.snd).isSome := h
  have hbase : (df.cols.find? fun p => p.fst = col).isSome := by
    cases hc : df.cols.find? fun p => p.fst = col <;> simp [hc] at hf ⊢
  show ((df.cols.map fun p => if p.fst = col then (p.fst, c) else p).find?
      fun p => p.fst = col).map Prod.snd = some c
  rw [find?_setCol df.cols col c hbase]
  rfl

theorem fixApplyActions_log_length (S : StatsLib) (iter : ℕ) :
    ∀ (acts : List Action) (df : Table) (failed : List String),
      (fixApplyActions S iter df failed acts).log.length = acts.length := by
  intro acts
  induction acts with
  | nil => intro df failed; rfl
  | cons a rest ih =>
    intro df failed
    simp [fixApplyActions, ih]

theorem processActions_log_length (S : StatsLib) :
    ∀ (acts : List Action) (df : Table) (failed : List String),
      (processActions S df failed acts).log.length = acts.length := by
  intro acts
  induction acts with
  | nil => intro df failed; rfl
  | cons a rest ih =>
    intro df failed
    simp [processActions, ih]

theorem tryApply_error (S : StatsLib) (iter : Option ℕ) (df : Table)
    (failed : List String) (a : Action) (msg : String)
    (h : applyActionE S df a = .error msg) :
    tryApply S iter df failed a = ⟨df, failed, failedEntry iter a msg, []⟩ := by
  simp [tryApply, h]

theorem fixApplyActions_error_step (S : StatsLib) (iter : ℕ) (df : Table)
    (failed : List String) (a : Action) (rest : List Action) (msg : String)
    (h : applyActionE S df a = .error msg) :
    fixApplyActions S iter df failed (a :: rest) =
      { df := (fixApplyActions S iter df failed rest).df,
        failed := (fixApplyActions S iter df failed rest).failed,
        log := failedEntry (some iter) a msg ::
          (fixApplyActions S iter df failed rest).log,
        saves := (fixApplyActions S iter df failed rest).saves } := by
  simp [fixApplyActions, tryApply_error S (some iter) df failed a msg h]

theorem processActions_error_step (S : StatsLib) (df : Table)
    (failed : List String) (a : Action) (rest : List Action) (msg : String)
    (hty : a.issue_type ≠ .skewness)
    (h : applyActionE S df a = .error msg) :
    processActions S df failed (a :: rest) =
      { df := (processActions S df failed rest).df,
        failed := (processActions S df failed rest).failed,
        log := failedEntry none a msg :: (processActions S df failed rest).log,
        saves := (processActions S df failed rest).saves } := by
  simp [processActions, preprocessOne, hty, tryApply_error S none df failed a msg h]



theorem SaveChain.weaken {f m g : List String} {s : List (List String)}
    (hfm : f ⊆ m) (h : SaveChain m s g) : SaveChain f s g := by
  cases s with
  | nil => exact Set.Subset.trans hfm h
  | cons s1 rest => exact ⟨Set.Subset.trans hfm h.1, h.2⟩

theorem SaveChain.append {f m g : List String} {s1 s2 : List (List String)}
    (h1 : SaveChain f s1 m) (h2 : SaveChain m s2 g) :
    SaveChain f (s1 ++ s2) g := by
  induction s1 generalizing f with
  | nil => exact h2.weaken h1
  | cons x rest ih => exact ⟨h1.1, ih h1.2⟩

theorem SaveChain.subset {f g : List String} {s : List (List String)}
    (h : SaveChain f s g) : f ⊆ g := by
  induction s generalizing f with
  | nil => exact h
  | cons x rest ih => exact Set.Subset.trans h.1 (ih h.2)

theorem subset_updateSet (f : List String) (cols : List String) :
    f ⊆ updateSet f cols := by
  unfold updateSet
  induction cols generalizing f with
  | nil => exact fun x hx => hx
  | cons c rest ih =>
    intro x hx
    refine ih (if c ∈ f then f else f ++ [c]) ?_
    by_cases hc : c ∈ f
    · simpa [hc] using hx
    · simp only [hc, if_false]
      exact List.mem_append_left _ hx

theorem tryApply_saveChain (S : StatsLib) (iter : Option ℕ) (df : Table)
    (failed : List String) (a : Action) :
    SaveChain failed (tryApply S iter df failed a).saves
      (tryApply S iter df failed a).failed := by
  unfold tryApply
  cases happ : applyActionE S df a with
  | error msg => exact fun x hx => hx
  | ok df2 =>
    by_cases hcond : a.issue_type = .skewness ∧ df2 = df
    · simp only [if_pos hcond]
      exact ⟨subset_updateSet failed a.columns, fun x hx => hx⟩
    · simp only [if_neg hcond]
      exact fun x hx => hx

theorem preprocessOne_saveChain (S : StatsLib) (df : Table)
    (failed : List String) (a : Action) :
    SaveChain failed (preprocessOne S df failed a).saves
      (preprocessOne S df failed a).failed := by
  unfold preprocessOne
  by_cases hty : a.issue_type = .skewness
  · simp only [if_pos hty]
    by_cases hfix : (a.columns.filter fun c => c ∉ failed).isEmpty
    · simp only [if_pos hfix]
      exact fun x hx => hx
    · simp only [if_neg hfix]
      exact tryApply_saveChain S none df failed _
  · simp only [if_neg hty]
    exact tryApply_saveChain S none df failed a

theorem fixApplyActions_saveChain (S : StatsLib) (iter : ℕ) :
    ∀ (acts : List Action) (df : Table) (failed : List String),
      SaveChain failed (fixApplyActions S iter df failed acts).saves
        (fixApplyActions S iter df failed acts).failed := by
  intro acts
  induction acts with
  | nil => intro df failed; exact fun x hx => hx
  | cons a rest ih =>
    intro df failed
    exact (tryApply_saveChain S (some iter) df failed a).append
      (ih _ _)

theorem processActions_saveChain (S : StatsLib) :
    ∀ (acts : List Action) (df : Table) (failed : List String),
      SaveChain failed (processActions S df failed acts).saves
        (processActions S df failed acts).failed := by
  intro acts
  induction acts with
  | nil => intro df failed; exact fun x hx => hx
  | cons a rest ih =>
    intro df failed
    exact (preprocessOne_saveChain S df failed a).append (ih _ _)

set_option maxHeartbeats 1000000 in
theorem fixLoop_saveChain (S : StatsLib) (fuel : ℕ) :
    ∀ (df : Table) (failed : List String) (it dc : ℕ),
      SaveChain failed (fixLoop S fuel df failed it dc).saves
        (fixLoop S fuel df failed it dc).failed := by
  induction fuel with
  | zero => intro df failed it dc; exact fun x hx => hx
  | succ n ih =>
    intro df failed it dc
    by_cases hemp : (analyzeDataframe S df failed).isEmpty = true
    · simp only [fixLoop, if_pos hemp]
      exact fun x hx => hx
    · by_cases hact :
        (buildActions failed (analyzeDataframe S df failed)).isEmpty = true
      · simp only [fixLoop, if_neg hemp, if_pos hact]
        exact fun x hx => hx
      · rw [fixLoop]
        simp only [if_neg hemp, if_neg hact]
        exact (fixApplyActions_saveChain S (it + 1) _ df failed).append
          (ih _ _ _ _)

theorem fixLoop_iterations_le (S : StatsLib) (fuel : ℕ) :
    ∀ (df : Table) (failed : List String) (it dc : ℕ),
      (fixLoop S fuel df failed it dc).iterations ≤ it + fuel := by
  induction fuel with
  | zero => intro df failed it dc; simp [fixLoop]
  | succ n ih =>
    intro df failed it dc
    by_cases hemp : (analyzeDataframe S df failed).isEmpty = true
    · simp only [fixLoop, if_pos hemp]
      omega
    · by_cases hact :
        (buildActions failed (analyzeDataframe S df failed)).isEmpty = true
      · simp only [fixLoop, if_neg hemp, if_pos hact]
        omega
      · simp only [fixLoop, if_neg hemp, if_neg hact]
        exact le_trans (ih _ _ (it + 1) (dc + 1)) (by omega)

theorem fixLoop_detect_eq (S : StatsLib) (fuel : ℕ) :
    ∀ (df : Table) (failed : List String) (it dc : ℕ),
      (fixLoop S fuel df failed it dc).detectCount + it =
        (fixLoop S fuel df failed it dc).iterations + dc := by
  induction fuel with
  | zero => intro df failed it dc; simp [fixLoop]; omega
  | succ n ih =>
    intro df failed it dc
    by_cases hemp : (analyzeDataframe S df failed).isEmpty = true
    · simp only [fixLoop, if_pos hemp]
      omega
    · by_cases hact :
        (buildActions failed (analyzeDataframe S df failed)).isEmpty = true
      · simp only [fixLoop, if_neg hemp, if_pos hact]
        omega
      · simp only [fixLoop, if_neg hemp, if_neg hact]
        have := ih (fixApplyActions S (it + 1) df failed
            (List.insertionSort
              (fun a b => actionOrder a.issue_type ≤ actionOrder b.issue_type)
              (buildActions failed (analyzeDataframe S df failed)))).df
          (fixApplyActions S (it + 1) df failed
            (List.insertionSort
              (fun a b => actionOrder a.issue_type ≤ actionOrder b.issue_type)
              (buildActions failed (analyzeDataframe S df failed)))).failed
          (it + 1) (dc + 1)
        omega

theorem fixLoop_converged (S : StatsLib) (fuel : ℕ) :
    ∀ (df : Table) (failed : List String) (it dc : ℕ),
      (fixLoop S fuel df failed it dc).terminal = .converged →
      analyzeDataframe S (fixLoop S fuel df failed it dc).df
        (fixLoop S fuel df failed it dc).failed = [] := by
  induction fuel with
  | zero => intro df failed it dc h; simp [fixLoop] at h
  | succ n ih =>
    intro df failed it dc
    by_cases hemp : (analyzeDataframe S df failed).isEmpty = true
    · intro _
      simp only [fixLoop, if_pos hemp]
      exact List.isEmpty_iff.mp hemp
    · by_cases hact :
        (buildActions failed (analyzeDataframe S df failed)).isEmpty = true
      · intro h
        simp only [fixLoop, if_neg hemp, if_pos hact] at h
        exact absurd h (by simp)
      · intro h
        simp only [fixLoop, if_neg hemp, if_neg hact] at h ⊢
        exact ih _ _ _ _ h

theorem fixAllIssues_no_issues (S : StatsLib) (d : Table) (f : List String)
    (h : analyzeDataframe S d f = []) :
    fixAllIssues S d f = ⟨d, f, [], [], 1, 2, .converged, []⟩ := by
  simp [fixAllIssues, fixLoop, h]



theorem mem_uniqueVals [DecidableEq α] {a : α} {l : List α} :
    a ∈ uniqueVals l ↔ a ∈ l := by
  induction l with
  | nil => simp [uniqueVals]
  | cons b rest ih =>
    simp only [uniqueVals, List.mem_cons, List.mem_filter]
    constructor
    · rintro (rfl | ⟨hmem, _⟩)
      · exact Or.inl rfl
      · exact Or.inr (ih.mp hmem)
    · rintro (rfl | hmem)
      · exact Or.inl rfl
      · by_cases hab : a = b
        · exact Or.inl hab
        · exact Or.inr ⟨ih.mpr hmem, by simpa using hab⟩

theorem foldlMin_le_init (l : List ℕ) (a : ℕ) : l.foldl Nat.min a ≤ a := by
  induction l generalizing a with
  | nil => exact le_refl _
  | cons x rest ih =>
    exact le_trans (ih (Nat.min a x)) (Nat.min_le_left a x)

theorem foldlMin_le_mem (l : List ℕ) : ∀ (a x : ℕ), x ∈ l →
    l.foldl Nat.min a ≤ x := by
  induction l with
  | nil => intro a x hx; simp at hx
  | cons y rest ih =>
    intro a x hx
    rcases List.mem_cons.mp hx with rfl | hmem
    · exact le_trans (foldlMin_le_init rest (Nat.min a x)) (Nat.min_le_right a x)
    · exact ih (Nat.min a y) x hmem

theorem foldlMin_mem (l : List ℕ) : ∀ (a : ℕ),
    l.foldl Nat.min a = a ∨ l.foldl Nat.min a ∈ l := by
  induction l with
  | nil => intro a; exact Or.inl rfl
  | cons x rest ih =>
    intro a
    rcases ih (Nat.min a x) with h | h
    · rcases Nat.le_total a x with hax | hxa
      · left
        rw [List.foldl_cons, h]
        exact Nat.min_eq_left hax
      · right
        rw [List.foldl_cons, h]
        have hmx : Nat.min a x = x := Nat.min_eq_right hxa
        rw [hmx]
        exact List.mem_cons_self _ _
    · exact Or.inr (List.mem_cons_of_mem _ (by rw [List.foldl_cons]; exact h))

theorem minNat_le {l : List ℕ} {x : ℕ} (hx : x ∈ l) : minNat l ≤ x := by
  cases l with
  | nil => simp at hx
  | cons a rest =>
    rcases List.mem_cons.mp hx with rfl | hmem
    · exact foldlMin_le_init rest x
    · exact foldlMin_le_mem rest a x hmem

theorem minNat_mem {l : List ℕ} (hl : l ≠ []) : minNat l ∈ l := by
  cases l with
  | nil => exact absurd rfl hl
  | cons a rest =>
    rcases foldlMin_mem rest a with h | h
    · rw [minNat, h]
      exact List.mem_cons_self _ _
    · exact List.mem_cons_of_mem _ h

theorem minNat_valueCounts_attained [DecidableEq α] {y : List α} (hy : y ≠ []) :
    ∃ v ∈ y, y.count v = minNat (valueCounts y) := by
  have hne : uniqueVals y ≠ [] := by
    cases y with
    | nil => exact absurd rfl hy
    | cons a rest => simp [uniqueVals]
  have hcne : valueCounts y ≠ [] := by
    simpa [valueCounts] using hne
  have hmem := minNat_mem hcne
  rw [valueCounts] at hmem
  obtain ⟨v, hv, hcount⟩ := List.mem_map.mp hmem
  exact ⟨v, mem_uniqueVals.mp hv, hcount⟩

theorem minNat_valueCounts_le [DecidableEq α] {y : List α} {v : α}
    (hv : v ∈ y) : minNat (valueCounts y) ≤ y.count v := by
  apply minNat_le
  rw [valueCounts]
  exact List.mem_map.mpr ⟨v, mem_uniqueVals.mpr hv, rfl⟩



theorem handleSkewCol_revert (S : StatsLib) (v : List (Option ℚ))
    (h1 : ¬ nuniqueL (nonnull v) < 5)
    (h2 : ¬ listMax (nonnull v) - listMin (nonnull v) < 1 / 100)
    (h3 : ¬ listMax (nonnull (skLogVals S v)) -
      listMin (nonnull (skLogVals S v)) < 1 / 100)
    (h4 : |S.skew (nonnull v)| * (9 / 10) ≤ |S.skew (nonnull (skLogVals S v))|) :
    handleSkewCol S v = v := by
  simp only [handleSkewCol]
  rw [if_neg h1, if_neg h2, if_neg h3, if_pos h4]

theorem fixApplyActions_memoize (S : StatsLib) (iter : ℕ) (df : Table)
    (failed : List String) (a : Action) (rest : List Action)
    (hty : a.issue_type = .skewness)
    (hok : applyActionE S df a = .ok df) :
    fixApplyActions S iter df failed (a :: rest) =
      { df := (fixApplyActions S iter (df.dropColumns a.columns)
                 (updateSet failed a.columns) rest).df,
        failed := (fixApplyActions S iter (df.dropColumns a.columns)
                 (updateSet failed a.columns) rest).failed,
        log := removedEntry (some iter) a ::
          (fixApplyActions S iter (df.dropColumns a.columns)
            (updateSet failed a.columns) rest).log,
        saves := updateSet failed a.columns ::
          (fixApplyActions S iter (df.dropColumns a.columns)
            (updateSet failed a.columns) rest).saves } := by
  simp [fixApplyActions, tryApply, hok, hty]

theorem handleOutliers_cap_single (S : StatsLib) (df : Table) (col : String)
    (v : List (Option ℚ)) (hcol : df.getCol col = some (.num v)) :
    handleOutliers S df [col] "cap" = df.setCol col (.num (capColumn v)) := by
  simp [handleOutliers, hcol]

end DP

namespace DP

theorem fixAllIssues_iterations_le (S : StatsLib) (df : Table)
    (f : List String) : (fixAllIssues S df f).iterations ≤ 5 :=
  fixLoop_iterations_le S 5 df f 0 0

theorem fixAllIssues_failed_superset (S : StatsLib) (df : Table)
    (f : List String) : f ⊆ (fixAllIssues S df f).failed :=
  SaveChain.subset (fixLoop_saveChain S 5 df f 0 0)

theorem fixAllIssues_converged_analyze (S : StatsLib) (df : Table)
    (f : List String) (h : (fixAllIssues S df f).terminal = .converged) :
    analyzeDataframe S (fixAllIssues S df f).df
      (fixAllIssues S df f).failed = [] :=
  fixLoop_converged S 5 df f 0 0 h

/-! ## Claim C1 -/

/-- C1 (counterexample): on `noisyTable` (one text column that the
recommended `lowercase` fix never changes) one `fix_all_issues` call runs
the issue detector six times on the working table - five in-loop passes
plus the final remaining-issue pass of line 890 - refuting the claimed
bound of five detector invocations. -/
theorem auto_fix_six_detection_passes :
    (fixAllIssues qlib noisyTable []).detectCount = 6 ∧
    ¬ (fixAllIssues qlib noisyTable []).detectCount ≤ 5 := by
  constructor
  · with_unfolding_all rfl
  · with_unfolding_all decide

/-- C1 (amended): one `fix_all_issues` call runs the detect-recommend-apply
cycle at most `max_iterations = 5` times, and invokes the issue detector on
the working table exactly once per entered iteration plus once after the
loop - hence at most 6 detection passes in total. -/
theorem auto_fix_detection_bound_amended (S : StatsLib) (df : Table)
    (f : List String) :
    (fixAllIssues S df f).detectCount = (fixAllIssues S df f).iterations + 1 ∧
    (fixAllIssues S df f).iterations ≤ 5 := by
  have hd := fixLoop_detect_eq S 5 df f 0 0
  have hi := fixLoop_iterations_le S 5 df f 0 0
  constructor
  · show (fixLoop S 5 df f 0 0).detectCount + 1 =
      (fixLoop S 5 df f 0 0).iterations + 1
    omega
  · exact hi

/-! ## Claim C2 -/

set_option maxRecDepth 4000
set_option maxHeartbeats 1000000

/-- C2 (counterexample): in a two-column skewness action the log transform
fails the 10%-improvement test on column `b` (the stated antecedent) and
`b` is reverted to its pre-transform values, but because column `a` of the
same action did change, the applied table is not identical to the
pre-action table, so `b` is neither dropped from the table nor added to
FailureMemory (and nothing is persisted) - it will be re-detected and
retried, contrary to the claim. -/
theorem skew_partial_failure_not_memoized :
    |qlib.skew (nonnull bVals)| * (9 / 10) ≤
      |qlib.skew (nonnull (skLogVals qlib bVals))| ∧
    (fixApplyActions qlib 1 abTable [] [skewActAB]).df.getCol "b" =
      some (.num bVals) ∧
    "b" ∈ (fixApplyActions qlib 1 abTable [] [skewActAB]).df.names ∧
    (fixApplyActions qlib 1 abTable [] [skewActAB]).failed = [] ∧
    (fixApplyActions qlib 1 abTable [] [skewActAB]).saves = [] ∧
    (fixApplyActions qlib 1 abTable [] [skewActAB]).df.getCol "a" ≠
      some (.num aVals) := by
  refine ⟨by with_unfolding_all decide, by with_unfolding_all rfl,
    by with_unfolding_all decide, by with_unfolding_all rfl,
    by with_unfolding_all rfl, by with_unfolding_all decide⟩

/-- C2 (amended): (i) whenever the log transform fails to reduce a skewed
column's absolute skewness by at least 10% (and the column passed the
distinct-count and variation guards), `_handle_skewness` reverts the
column, so its values equal the pre-transform values; (ii) when a skewness
action leaves the *entire* table unchanged, the convergence loop drops the
action's columns, extends FailureMemory with them and persists it.  A
reverted column inside an action that changed some other column is not
dropped or memoized (see the counterexample). -/
theorem skew_failed_log_reverts_and_memoizes :
    (∀ (S : StatsLib) (v : List (Option ℚ)),
        ¬ nuniqueL (nonnull v) < 5 →
        ¬ listMax (nonnull v) - listMin (nonnull v) < 1 / 100 →
        ¬ listMax (nonnull (skLogVals S v)) -
            listMin (nonnull (skLogVals S v)) < 1 / 100 →
        |S.skew (nonnull v)| * (9 / 10) ≤
            |S.skew (nonnull (skLogVals S v))| →
        handleSkewCol S v = v) ∧
    (∀ (S : StatsLib) (iter : ℕ) (df : Table) (failed : List String)
        (a : Action) (rest : List Action),
        a.issue_type = .skewness →
        applyActionE S df a = .ok df →
        fixApplyActions S iter df failed (a :: rest) =
          { df := (fixApplyActions S iter (df.dropColumns a.columns)
                     (updateSet failed a.columns) rest).df,
            failed := (fixApplyActions S iter (df.dropColumns a.columns)
                     (updateSet failed a.columns) rest).failed,
            log := removedEntry (some iter) a ::
              (fixApplyActions S iter (df.dropColumns a.columns)
                (updateSet failed a.columns) rest).log,
            saves := updateSet failed a.columns ::
              (fixApplyActions S iter (df.dropColumns a.columns)
                (updateSet failed a.columns) rest).saves }) :=
  ⟨handleSkewCol_revert, fixApplyActions_memoize⟩

/-- C2 (witness): on the single-column table `bTable` the log transform
fails the 10%-improvement test, the column is reverted (so the whole table
is unchanged), and the convergence loop drops it and memoizes it. -/
theorem skew_failed_log_witness :
    handleSkewCol qlib bVals = bVals ∧
    fixApplyActions qlib 1 bTable [] [skewActB] =
      { df := (fixApplyActions qlib 1 (bTable.dropColumns skewActB.columns)
                 (updateSet [] skewActB.columns) []).df,
        failed := (fixApplyActions qlib 1 (bTable.dropColumns skewActB.columns)
                 (updateSet [] skewActB.columns) []).failed,
        log := removedEntry (some 1) skewActB ::
          (fixApplyActions qlib 1 (bTable.dropColumns skewActB.columns)
            (updateSet [] skewActB.columns) []).log,
        saves := updateSet [] skewActB.columns ::
          (fixApplyActions qlib 1 (bTable.dropColumns skewActB.columns)
            (updateSet [] skewActB.columns) []).saves } :=
  ⟨skew_failed_log_reverts_and_memoizes.1 qlib bVals
     (by with_unfolding_all decide) (by with_unfolding_all decide)
     (by with_unfolding_all decide) (by with_unfolding_all decide),
   skew_failed_log_reverts_and_memoizes.2 qlib 1 bTable [] skewActB []
     rfl (by with_unfolding_all rfl)⟩

/-! ## Claim C3 -/

/-- C3 (counterexample): running `fix_all_issues` a second time on the
table a first run produced (the unfixable noisy-text table) ends in the
`Exhausted` state with a FailureMemory *equal* to - not strictly larger
than - the one before the second run, and the second run repeats the same
noisy-text/`txt` action in at least two iterations without progress. -/
theorem second_auto_fix_run_cycles :
    (fixAllIssues qlib (fixAllIssues qlib noisyTable []).df
        (fixAllIssues qlib noisyTable []).failed).terminal = .exhausted ∧
    (fixAllIssues qlib (fixAllIssues qlib noisyTable []).df
        (fixAllIssues qlib noisyTable []).failed).failed =
      (fixAllIssues qlib noisyTable []).failed ∧
    2 ≤ ((fixAllIssues qlib (fixAllIssues qlib noisyTable []).df
        (fixAllIssues qlib noisyTable []).failed).log.filter fun e =>
          decide (e.issue_type = .noisy_text ∧ e.columns = ["txt"])).length := by
  refine ⟨by with_unfolding_all rfl, by with_unfolding_all rfl,
    by with_unfolding_all decide⟩

/-- C3 (amended): a second `fix_all_issues` run on the first run's output
terminates within 5 iterations in the `Converged`, no-auto-fixable-issues
or `Exhausted` state, with a FailureMemory that is a (not necessarily
strict) superset of the one before the second run; if the first run
converged, the second run converges with zero applied actions.  The second
run may, however, end `Exhausted` with an unchanged FailureMemory while
repeating the same column/issue-kind action (see the counterexample). -/
theorem second_auto_fix_run_amended (S : StatsLib) (df : Table)
    (f : List String) :
    ((fixAllIssues S (fixAllIssues S df f).df
        (fixAllIssues S df f).failed).terminal = .converged ∨
      (fixAllIssues S (fixAllIssues S df f).df
        (fixAllIssues S df f).failed).terminal = .noActionable ∨
      (fixAllIssues S (fixAllIssues S df f).df
        (fixAllIssues S df f).failed).terminal = .exhausted) ∧
    (fixAllIssues S (fixAllIssues S df f).df
      (fixAllIssues S df f).failed).iterations ≤ 5 ∧
    (fixAllIssues S df f).failed ⊆
      (fixAllIssues S (fixAllIssues S df f).df
        (fixAllIssues S df f).failed).failed ∧
    ((fixAllIssues S df f).terminal = .converged →
      fixAllIssues S (fixAllIssues S df f).df (fixAllIssues S df f).failed =
        ⟨(fixAllIssues S df f).df, (fixAllIssues S df f).failed,
         [], [], 1, 2, .converged, []⟩) := by
  refine ⟨?_, ?_, ?_, ?_⟩
  · have htri : ∀ t : Terminal,
        t = .converged ∨ t = .noActionable ∨ t = .exhausted := by
      intro t; cases t <;> simp
    exact htri _
  · exact fixAllIssues_iterations_le S (fixAllIssues S df f).df
      (fixAllIssues S df f).failed
  · exact fixAllIssues_failed_superset S (fixAllIssues S df f).df
      (fixAllIssues S df f).failed
  · intro h
    exact fixAllIssues_no_issues S (fixAllIssues S df f).df
      (fixAllIssues S df f).failed (fixAllIssues_converged_analyze S df f h)

/-- C3 (witness): the clean table converges on the first run, and the
second run converges immediately with an empty action log. -/
theorem second_auto_fix_run_witness :
    (fixAllIssues qlib cleanTable []).terminal = .converged ∧
    fixAllIssues qlib (fixAllIssues qlib cleanTable []).df
        (fixAllIssues qlib cleanTable []).failed =
      ⟨(fixAllIssues qlib cleanTable []).df,
       (fixAllIssues qlib cleanTable []).failed, [], [], 1, 2,
       .converged, []⟩ :=
  ⟨by with_unfolding_all rfl,
   (second_auto_fix_run_amended qlib cleanTable []).2.2.2
     (by with_unfolding_all rfl)⟩

end DP

namespace DP

/-! ## Claim C4 -/

/-- C4: after the outlier `cap` action on a numeric column, the column is
the clipped column, and every non-null value lies within
`[Q1 - 1.5*IQR, Q3 + 1.5*IQR]` computed from the column's pre-transform
values (provided the column has at least one non-null value; otherwise the
bounds are NaN and pandas clip is a no-op). -/
theorem outlier_cap_within_pre_bounds (S : StatsLib) (df : Table)
    (col : String) (v : List (Option ℚ))
    (hcol : df.getCol col = some (.num v)) (hv : nonnull v ≠ []) :
    (handleOutliers S df [col] "cap").getCol col =
      some (.num (capColumn v)) ∧
    ∀ x ∈ nonnull (capColumn v), capLower v ≤ x ∧ x ≤ capUpper v := by
  constructor
  · rw [handleOutliers_cap_single S df col v hcol]
    exact getCol_setCol df col _ (by rw [hcol]; rfl)
  · exact capColumn_within v hv

/-- C4 (witness): the spec's example column `[20, 21, 19, 22, 1000]`. -/
theorem outlier_cap_witness :
    (handleOutliers qlib capTable ["age"] "cap").getCol "age" =
      some (.num (capColumn capVals)) ∧
    capLower capVals ≤ 20 ∧ (20 : ℚ) ≤ capUpper capVals :=
  ⟨(outlier_cap_within_pre_bounds qlib capTable "age" capVals
      (by with_unfolding_all rfl) (by with_unfolding_all decide)).1,
   ((outlier_cap_within_pre_bounds qlib capTable "age" capVals
      (by with_unfolding_all rfl) (by with_unfolding_all decide)).2 20
      (by with_unfolding_all decide)).1,
   ((outlier_cap_within_pre_bounds qlib capTable "age" capVals
      (by with_unfolding_all rfl) (by with_unfolding_all decide)).2 20
      (by with_unfolding_all decide)).2⟩

/-! ## Claim C5 -/

/-- C5: per-action failure isolation, in the convergence loop's batch
(`fixApplyActions`) and in single-pass preprocessing (`processActions`):
(i)/(ii) every action of a batch produces exactly one log record, so no
failing action stops later actions from being attempted, and a table is
always returned (the functions are total); (iii)/(iv) an action whose
application raises is recorded with status `"failed"` and the error
message, and processing of the remaining actions continues from the
unchanged table and FailureMemory. -/
theorem per_action_failure_isolation :
    (∀ (S : StatsLib) (iter : ℕ) (df : Table) (failed : List String)
        (acts : List Action),
        (fixApplyActions S iter df failed acts).log.length = acts.length) ∧
    (∀ (S : StatsLib) (df : Table) (failed : List String)
        (acts : List Action),
        (processActions S df failed acts).log.length = acts.length) ∧
    (∀ (S : StatsLib) (iter : ℕ) (df : Table) (failed : List String)
        (a : Action) (rest : List Action) (msg : String),
        applyActionE S df a = .error msg →
        fixApplyActions S iter df failed (a :: rest) =
          { df := (fixApplyActions S iter df failed rest).df,
            failed := (fixApplyActions S iter df failed rest).failed,
            log := failedEntry (some iter) a msg ::
              (fixApplyActions S iter df failed rest).log,
            saves := (fixApplyActions S iter df failed rest).saves }) ∧
    (∀ (S : StatsLib) (df : Table) (failed : List String) (a : Action)
        (rest : List Action) (msg : String),
        a.issue_type ≠ .skewness →
        applyActionE S df a = .error msg →
        processActions S df failed (a :: rest) =
          { df := (processActions S df failed rest).df,
            failed := (processActions S df failed rest).failed,
            log := failedEntry none a msg ::
              (processActions S df failed rest).log,
            saves := (processActions S df failed rest).saves }) :=
  ⟨fun S iter df failed acts => fixApplyActions_log_length S iter acts df failed,
   fun S df failed acts => processActions_log_length S acts df failed,
   fun S iter df failed a rest msg h =>
     fixApplyActions_error_step S iter df failed a rest msg h,
   fun S df failed a rest msg hty h =>
     processActions_error_step S df failed a rest msg hty h⟩

/-- C5 (witness): an inconsistent-types action on a zero-row table raises
`ZeroDivisionError`; both loops record it as `"failed"` with the message
and keep going. -/
theorem per_action_failure_isolation_witness :
    fixApplyActions qlib 1 emptyRowTable [] [inconsAct] =
      { df := (fixApplyActions qlib 1 emptyRowTable [] []).df,
        failed := (fixApplyActions qlib 1 emptyRowTable [] []).failed,
        log := failedEntry (some 1) inconsAct "division by zero" ::
          (fixApplyActions qlib 1 emptyRowTable [] []).log,
        saves := (fixApplyActions qlib 1 emptyRowTable [] []).saves } ∧
    processActions qlib emptyRowTable [] [inconsAct] =
      { df := (processActions qlib emptyRowTable [] []).df,
        failed := (processActions qlib emptyRowTable [] []).failed,
        log := failedEntry none inconsAct "division by zero" ::
          (processActions qlib emptyRowTable [] []).log,
        saves := (processActions qlib emptyRowTable [] []).saves } ∧
    (fixApplyActions qlib 1 emptyRowTable [] [inconsAct]).log.length = 1 :=
  ⟨per_action_failure_isolation.2.2.1 qlib 1 emptyRowTable [] inconsAct []
     "division by zero" (by with_unfolding_all rfl),
   per_action_failure_isolation.2.2.2 qlib emptyRowTable [] inconsAct []
     "division by zero" (by decide) (by with_unfolding_all rfl),
   per_action_failure_isolation.1 qlib 1 emptyRowTable [] [inconsAct]⟩

/-! ## Claim C6 -/

/-- C6 (code bug): a `wrong_date_format` action with method `convert` (the
auto-fix recommender's default) is a no-op: `_normalize_method_name` maps
`convert` to `'standardize'`, but `_handle_dates` only acts on `'convert'`
and `'extract'`, so the action leaves the table - and the badly formatted
date column - unchanged; the `convert` branch itself, addressed directly,
does rewrite the column, showing the branch is live but unreachable
through `_apply_action`. -/
theorem wrong_date_convert_is_noop :
    normalizeMethodName "convert" .wrong_date_format = "standardize" ∧
    applyActionE qlib dateTable dateAct = .ok dateTable ∧
    handleDates qlib dateTable ["d"] "convert" dateAct.parameters ≠
      dateTable :=
  ⟨by with_unfolding_all rfl, by with_unfolding_all rfl,
   by with_unfolding_all decide⟩

/-! ## Claim C7 -/

/-- C7 (code bug): an `outliers` action requesting the log-transform method
is a no-op: `_normalize_method_name` maps it to `'log'`, but
`_handle_outliers` only acts on `'remove'`, `'cap'` and `'log_transform'`,
so the action leaves the column unchanged; the `'log_transform'` branch,
addressed directly, does transform the column, showing the branch is dead
code through `_apply_action`. -/
theorem outlier_log_transform_is_noop :
    normalizeMethodName "log_transform" .outliers = "log" ∧
    applyActionE qlib xTable logAct = .ok xTable ∧
    handleOutliers qlib xTable ["x"] "log_transform" ≠ xTable :=
  ⟨by with_unfolding_all rfl, by with_unfolding_all rfl,
   by with_unfolding_all decide⟩

/-! ## Claim C8 -/

/-- C8: within one correction run - a `preprocess_dataset` call or a
`fix_all_issues` call - the FailureMemory states form an append-only chain:
the loaded set is contained in the first persisted state, each persisted
state is contained in the next, and the run's final in-memory set contains
the last persisted state. -/
theorem failure_memory_append_only :
    (∀ (S : StatsLib) (df : Table) (f : List String) (acts : List Action),
        SaveChain f (preprocessDataset S df f acts).saves
          (preprocessDataset S df f acts).failed) ∧
    (∀ (S : StatsLib) (df : Table) (f : List String),
        SaveChain f (fixAllIssues S df f).saves (fixAllIssues S df f).failed) :=
  ⟨fun S df f acts => processActions_saveChain S acts df f,
   fun S df f => fixLoop_saveChain S 5 df f 0 0⟩

/-! ## Claim C9 -/

/-- C9: for an `imbalanced_data` action with method `smote` on the non-null
target values `y`: when some class has exactly one member (fewer than 2),
the executor selects `RandomOverSampler` instead of SMOTE; when every class
has at least 2 members, it selects SMOTE with
`k_neighbors = min(5, minority_size - 1)`, which is strictly below the
minority class size; `minNat (valueCounts y)` is certified to be the
minority class size (attained, and a lower bound of all class counts). -/
theorem smote_small_class_selection (y : List CellV) (hy : y ≠ []) :
    ((∃ v ∈ y, y.count v = 1) →
      samplerForMethod y "smote" = some .randomOver) ∧
    ((∀ v ∈ y, 2 ≤ y.count v) →
      samplerForMethod y "smote" =
        some (.smote (Nat.min 5 (minNat (valueCounts y) - 1))) ∧
      Nat.min 5 (minNat (valueCounts y) - 1) < minNat (valueCounts y) ∧
      (∃ v ∈ y, y.count v = minNat (valueCounts y)) ∧
      ∀ v ∈ y, minNat (valueCounts y) ≤ y.count v) := by
  have huniq : uniqueVals y ≠ [] := by
    cases y with
    | nil => exact absurd rfl hy
    | cons a rest => simp [uniqueVals]
  have hcne : valueCounts y ≠ [] := by simpa [valueCounts] using huniq
  have hcempty : ¬ (valueCounts y).isEmpty = true := by
    simpa [List.isEmpty_iff] using hcne
  constructor
  · rintro ⟨v, hv, hc⟩
    have hle : minNat (valueCounts y) ≤ 1 := by
      have := minNat_valueCounts_le hv
      omega
    simp only [samplerForMethod, if_pos rfl]
    rw [if_neg hcempty, if_pos (by omega : minNat (valueCounts y) < 2)]
    simp
  · intro hall
    obtain ⟨u, hu, huc⟩ := minNat_valueCounts_attained hy
    have h2 : 2 ≤ minNat (valueCounts y) := by
      have := hall u hu
      omega
    refine ⟨?_, lt_of_le_of_lt (Nat.min_le_right _ _) (by omega),
      ⟨u, hu, huc⟩, fun v hv => minNat_valueCounts_le hv⟩
    simp only [samplerForMethod, if_pos rfl]
    rw [if_neg hcempty, if_neg (by omega : ¬ minNat (valueCounts y) < 2)]
    simp

/-- C9 (witness): class counts (2, 1) degrade to random oversampling;
class counts (2, 3) select SMOTE with `k_neighbors = min(5, 2 - 1) = 1`. -/
theorem smote_small_class_witness :
    samplerForMethod yOneSmall "smote" = some .randomOver ∧
    samplerForMethod yAllTwo "smote" =
      some (.smote (Nat.min 5 (minNat (valueCounts yAllTwo) - 1))) :=
  ⟨(smote_small_class_selection yOneSmall (by decide)).1
     ⟨.s "b", by decide, by decide⟩,
   ((smote_small_class_selection yAllTwo (by decide)).2 (by decide)).1⟩

/-! ## Claim C10 -/

/-- C10: `_handle_skewness` never consults its `method` argument: for every
collaborator instantiation, table, column list and any two method strings,
the outputs coincide. -/
theorem skewness_executor_ignores_method (S : StatsLib) (df : Table)
    (columns : List String) (m1 m2 : String) :
    handleSkewness S df columns m1 = handleSkewness S df columns m2 := by
  induction columns generalizing df with
  | nil => rfl
  | cons c rest ih =>
    rw [handleSkewness, handleSkewness]
    exact ih _

end DP
